import Mathlib

/-!
# Stencil2D driver and average-pooling layer

A shallow embedding of

* `src/cuda/level1/stencil2d/Stencil2Dmain.cpp` (`CheckOptions`, `DoTest`, `RunBenchmark`), and
* `src/cuda/level2/darknet/src/avgpool_layer.c` (`forward_avgpool_layer`,
  `backward_avgpool_layer`),

followed by the properties proved about them.

Conventions of the embedding.

* C++ integers are mathematical integers; every conversion to a narrower or unsigned type that
  the source performs is written out (`toInt32`, `toUInt32`, `toUInt64`).  `OptionParser.h` is
  not among the translated files: `getOptionInt` is bound to `long long` variables throughout
  the driver, so its value is an `Int` and the conversions at `int` / `unsigned int` variables
  are explicit.  Signed arithmetic that would overflow is undefined behaviour in the source and
  is kept exact here.
* `float` / `double` option values are `FloatVal` (they are only compared with zero); the
  element values of the pooling layer are rationals (exact arithmetic).
* Collaborators whose code is not in the translated files (factories, stencils, initializer,
  validater, timer, matrix file support) are parameters collected in `Env`, which also says
  which of their calls throw; the reader of expected-matrix files is one of them and may leave
  any grid behind, whether it succeeds or fails.  What the initializer and a stencil do to a
  grid is modelled from the spec where a definition says so.  The driver records every call
  it makes to them in a log.
-/

namespace Stencil2D

/-! ## Machine integers -/

/-- Conversion to a 32-bit `int` (two's complement wrap-around). -/
def toInt32 (v : Int) : Int := (v + 2 ^ 31) % 2 ^ 32 - 2 ^ 31

/-- Conversion to a 32-bit `unsigned int`. -/
def toUInt32 (v : Int) : Nat := (v % 2 ^ 32).toNat

/-- Conversion to a 64-bit `unsigned long`. -/
def toUInt64 (v : Int) : Nat := (v % 2 ^ 64).toNat

/-! ## Floating-point values compared with zero -/

/-- A `float` or `double` value: not-a-number, an infinity, or the finite number
`mantissa * 2 ^ exponent`. -/
inductive FloatVal where
  | nan
  | negInf
  | posInf
  | finite (mantissa exponent : Int)
  deriving DecidableEq

/-- The C++ comparison `x <= 0.0f`. -/
def FloatVal.leZero : FloatVal → Bool
  | .nan => false
  | .negInf => true
  | .posInf => false
  | .finite m _ => decide (m ≤ 0)

/-- The C++ comparison `x > 0.0f`. -/
def FloatVal.gtZero : FloatVal → Bool
  | .nan => false
  | .negInf => false
  | .posInf => true
  | .finite m _ => decide (0 < m)

/-! ## Options and errors -/

/-- Exceptions: `InvalidArgValue` is the one thrown by `CheckOptions`; `other` stands for any
exception raised by a collaborator. -/
inductive Error where
  | InvalidArgValue (msg : String)
  | other (what : String)
  deriving DecidableEq

deriving instance DecidableEq for Except

/-- The parsed command line: the value of every option, by name. -/
structure OptionParser where
  ints : String → Int
  floats : String → FloatVal
  bools : String → Bool
  strings : String → String

/-- Value of an integer option (`long long`). -/
def OptionParser.getOptionInt (opts : OptionParser) (name : String) : Int := opts.ints name

/-- Value of a floating-point option (`float`). -/
def OptionParser.getOptionFloat (opts : OptionParser) (name : String) : FloatVal :=
  opts.floats name

/-- Value of a boolean option. -/
def OptionParser.getOptionBool (opts : OptionParser) (name : String) : Bool := opts.bools name

/-- Value of a string option. -/
def OptionParser.getOptionString (opts : OptionParser) (name : String) : String :=
  opts.strings name

/-- The defaults registered by `addBenchmarkSpecOptions` (lines 262-289), together with the
harness defaults `passes`, `size` and `verbose` given as arguments. -/
def addBenchmarkSpecOptions (passes size : Int) (verbose : Bool) : OptionParser where
  ints := fun name =>
    if name = "matrixRows" then 0
    else if name = "matrixCols" then 0
    else if name = "blockRows" then 8
    else if name = "blockCols" then 256
    else if name = "num-iters" then 1000
    else if name = "seed" then 71594
    else if name = "val-print-limit" then 15
    else if name = "passes" then passes
    else if name = "size" then size
    else 0
  floats := fun name =>
    if name = "weight-center" then .finite 1 (-2)
    else if name = "weight-cardinal" then .finite 10066330 (-26)
    else if name = "weight-diagonal" then .finite 13421773 (-28)
    else if name = "haloVal" then .finite 0 0
    else if name = "val-threshold" then .finite 10737418 (-30)
    else .finite 0 0
  bools := fun name => if name = "verbose" then verbose else false
  strings := fun _ => ""

/-- Replace the value of one integer option. -/
def OptionParser.setInt (opts : OptionParser) (key : String) (v : Int) : OptionParser :=
  { opts with ints := fun name => if name = key then v else opts.ints name }

/-- Replace the value of one floating-point option. -/
def OptionParser.setFloat (opts : OptionParser) (key : String) (v : FloatVal) : OptionParser :=
  { opts with floats := fun name => if name = key then v else opts.floats name }

/-- The stencil-independent `CheckOptions` (lines 292-312). -/
def CheckOptions (opts : OptionParser) : Except Error Unit :=
  let matrixRows := opts.getOptionInt "matrixRows"
  let matrixCols := opts.getOptionInt "matrixCols"
  if matrixRows < 0 ∨ matrixCols < 0 then
    .error (.InvalidArgValue "Each size dimension must be positive")
  else
    let valThreshold := opts.getOptionFloat "val-threshold"
    if valThreshold.leZero then
      .error (.InvalidArgValue "Validation threshold must be positive")
    else
      let nErrsToPrint := toInt32 (opts.getOptionInt "val-print-limit")
      if nErrsToPrint < 0 then
        .error (.InvalidArgValue "Number of validation errors to print must be non-negative")
      else
        .ok ()

/-! ## Collaborators of the driver -/

/-- The template parameter `T` of `DoTest`: `float` or `double`. -/
inductive Precision where
  | single
  | double
  deriving DecidableEq

/-- The heap objects the driver creates. -/
inductive Obj where
  | HostStencilFactory
  | CUDAStencilFactory
  | hostStencil
  | cudaStencil
  | validater (pass : Nat)
  deriving DecidableEq

/-- What a grid holds, as a history of the operations applied to its storage. -/
inductive Cells where
  | fresh
  | initialized (seed : Int) (haloWidth : Nat) (haloVal : FloatVal)
  | stencilled (stencil : Obj) (nIters : Nat) (before : Cells)
  deriving DecidableEq

/-- A grid: its dimensions (halo included) and its contents. -/
structure Matrix2D where
  nRows : Int
  nColumns : Int
  cells : Cells
  deriving DecidableEq

/-- The constructor `Matrix2D<T>(rows, cols)`. -/
def Matrix2D.mk' (rows cols : Int) : Matrix2D := ⟨rows, cols, .fresh⟩

/-- The member `Reset(rows, cols)`: the storage is reallocated with the given dimensions. -/
def Matrix2D.Reset (_m : Matrix2D) (rows cols : Int) : Matrix2D := ⟨rows, cols, .fresh⟩

/-- Modelled from the spec: the functor `Initialize<T>` (InitializeMatrix2D.cpp is not among the
translated files) fills the interior from the seed and the halo with the halo value; it leaves
the dimensions of the grid as they are. -/
def Initialize (seed : Int) (haloWidth : Nat) (haloVal : FloatVal) (m : Matrix2D) : Matrix2D :=
  { m with cells := .initialized seed haloWidth haloVal }

/-- Modelled from the spec: the call operator of `Stencil<T>` (HostStencil.cpp and CUDAStencil.cpp
are not among the translated files) performs `nIters` passes over the interior of the grid; it
leaves the dimensions of the grid as they are. -/
def Stencil.apply (stencil : Obj) (m : Matrix2D) (nIters : Nat) : Matrix2D :=
  { m with cells := .stencilled stencil nIters m.cells }

/-- The two grids of `DoTest`. -/
inductive Grid where
  | expected
  | data (pass : Nat)
  deriving DecidableEq

/-- The value stored with a result: the rate `(nflops / elapsedTime) / 1e9` of a pass, kept as
its two operands, or the constant `FLT_MAX`. -/
inductive ResultValue where
  | gflops (nflops : Nat) (elapsedTime : FloatVal)
  | FLT_MAX
  deriving DecidableEq

/-- One entry of the result database: test, attributes, unit and value. -/
structure Result where
  test : String
  atts : String
  unit : String
  value : ResultValue
  deriving DecidableEq

/-- The result database: `AddResult` appends an entry. -/
abbrev ResultDatabase := List Result

/-- The calls the driver makes to its collaborators. -/
inductive Event where
  | create (o : Obj)
  | delete (o : Obj)
  | SetAllocator (T : Precision)
  | ReadMatrixFromFile (name : String)
  | SaveMatrixToFile (m : Matrix2D) (name : String)
  | Initialize (g : Grid)
  | apply (stencil : Obj) (g : Grid) (nIters : Nat)
  | AddResult (r : Result)
  | ValidateResult (pass : Nat) (expected data : Matrix2D) (valErrThreshold : FloatVal)
      (nValErrsToPrint : Nat)
  deriving DecidableEq

/-- The collaborators of one instantiation of `DoTest`, none of which is among the translated
files: the option checks of the two factories, the table of standard problem sizes, the names
of the expected-matrix files, `ReadMatrixFromFile`, the timer, and `raises`, which tells for a
call to `BuildStencil`, to the initializer, to a stencil, to `SaveMatrixToFile` or to the
validater whether it throws.  `ReadMatrixFromFile m name` gives the flag the reader returns and
the grid it leaves in place of `m`; nothing is assumed about either, whether the read succeeds
or fails. -/
structure Env where
  hostCheckOptions : OptionParser → Except Error Unit
  cudaCheckOptions : OptionParser → Except Error Unit
  GetStandardProblemSize : Int → Except Error (Int × Int)
  GetMatrixFileName : String → String
  ReadMatrixFromFile : Matrix2D → String → Bool × Matrix2D
  elapsedTime : Nat → FloatVal
  raises : Event → Option Error

/-! ## State of the driver -/

/-- The function-local `static const` arrays of `DoTest` (lines 71 and 91): they are initialised
the first time control passes their declaration and keep that value afterwards. -/
structure Statics where
  matrixArr : Option (Int × Int)
  blockArr : Option (Int × Int)

/-- What outlives a call of `DoTest`: the result database, the log of calls made so far and the
statics of each instantiation. -/
structure World where
  resultDB : ResultDatabase
  log : List Event
  statics : Precision → Statics

/-- The world at program start. -/
def World.init : World := ⟨[], [], fun _ => ⟨none, none⟩⟩

/-- The world together with the four pointers declared at the top of `DoTest` (lines 44-47). -/
structure Frame where
  world : World
  stdStencilFactory : Option Obj
  stdStencil : Option Obj
  testStencilFactory : Option Obj
  testStencil : Option Obj

/-- Record a completed call. -/
def Frame.emit (f : Frame) (ev : Event) : Frame :=
  { f with world := { f.world with log := f.world.log ++ [ev] } }

/-- Member `AddResult` of the result database. -/
def Frame.AddResult (f : Frame) (r : Result) : Frame :=
  { f with world := { f.world with resultDB := f.world.resultDB ++ [r],
                                   log := f.world.log ++ [.AddResult r] } }

/-- Assign the statics of the instantiation for `T`. -/
def Frame.setStatics (f : Frame) (T : Precision) (s : Statics) : Frame :=
  { f with world := { f.world with statics := Function.update f.world.statics T s } }

/-- A call to a collaborator: it throws if `raises` says so and is recorded otherwise. -/
def call (env : Env) (ev : Event) (f : Frame) : Except (Error × Frame) Frame :=
  match env.raises ev with
  | some e => .error (e, f)
  | none => .ok (f.emit ev)

/-- The statement `delete p`: nothing happens for a null pointer. -/
def delete (p : Option Obj) (f : Frame) : Frame :=
  match p with
  | none => f
  | some o => f.emit (.delete o)

/-! ## `DoTest` -/

/-- The halo width of line 86. -/
def haloWidth : Nat := 1

/-- The values `DoTest` extracts from the options (lines 60-97). -/
structure Config where
  nPasses : Nat
  nIters : Nat
  valErrThreshold : FloatVal
  nValErrsToPrint : Nat
  arrayDims : Int × Int
  seed : Int
  haloVal : FloatVal
  lDims : Int × Int

/-- The experiment description of lines 94-97. -/
def Config.experimentDescriptionStr (c : Config) : String :=
  toString c.nIters ++ ":" ++ toString c.arrayDims.1 ++ "x" ++ toString c.arrayDims.2 ++ ":" ++
    toString c.lDims.1 ++ "x" ++ toString c.lDims.2

/-- Lines 69-71: the array `matrixArr`, whose initialiser is evaluated only if the static has
not been initialised by an earlier call of the same instantiation. -/
def matrixArr (st : Statics) (opts : OptionParser) : Int × Int :=
  st.matrixArr.getD (opts.getOptionInt "matrixRows", opts.getOptionInt "matrixCols")

/-- Lines 72-82: the problem size `arrayDims`. -/
def arrayDims (env : Env) (st : Statics) (opts : OptionParser) : Except Error (Int × Int) :=
  if (matrixArr st opts).1 = 0 ∨ (matrixArr st opts).2 = 0 then
    -- `int sizeClass = opts.getOptionInt("size");`
    env.GetStandardProblemSize (toInt32 (opts.getOptionInt "size"))
  else .ok (matrixArr st opts)

/-- Lines 61-66 and 84-93: the remaining values, given the problem size. -/
def config (st : Statics) (opts : OptionParser) (dims : Int × Int) : Config where
  nPasses := toUInt32 (opts.getOptionInt "passes")
  nIters := toUInt32 (opts.getOptionInt "num-iters")
  valErrThreshold := opts.getOptionFloat "val-threshold"
  nValErrsToPrint := toUInt32 (opts.getOptionInt "val-print-limit")
  arrayDims := dims
  seed := opts.getOptionInt "seed"
  haloVal := opts.getOptionFloat "haloVal"
  -- `static const long long blockArr[] = {blockRows, blockCols};`
  lDims := st.blockArr.getD (opts.getOptionInt "blockRows", opts.getOptionInt "blockCols")

/-- Lines 60-97 of `DoTest`: the options are extracted and the problem size is chosen; the two
statics are initialised as control passes their declarations. -/
def extractOptions (env : Env) (T : Precision) (opts : OptionParser) (f : Frame) :
    Except (Error × Frame) (Config × Frame) :=
  let st := f.world.statics T
  let f := f.setStatics T { st with matrixArr := some (matrixArr st opts) }
  match arrayDims env st opts with
  | .error e => .error (e, f)
  | .ok dims =>
    let c := config st opts dims
    let f := f.setStatics T { (f.world.statics T) with blockArr := some c.lDims }
    .ok (c, f)

/-- Lines 112-140 of `DoTest`: the expected grid is allocated and, if a file is named, read
from it; the result is `haveExpectedData`, the grid and the frame. -/
def loadExpected (env : Env) (opts : OptionParser) (c : Config) (f : Frame) :
    Bool × Matrix2D × Frame :=
  let matrixFilenameBase := opts.getOptionString "expMatrixFile"
  let expected :=
    Matrix2D.mk' (c.arrayDims.1 + 2 * haloWidth) (c.arrayDims.2 + 2 * haloWidth)
  if matrixFilenameBase ≠ "" then
    let name := env.GetMatrixFileName matrixFilenameBase
    let r := env.ReadMatrixFromFile expected name
    let readOK := r.1
    let expected := r.2
    let f := f.emit (.ReadMatrixFromFile name)
    if readOK then
      if expected.nRows ≠ c.arrayDims.1 + 2 * haloWidth ∨
          expected.nColumns ≠ c.arrayDims.2 + 2 * haloWidth then
        (false, expected.Reset (c.arrayDims.1 + 2 * haloWidth) (c.arrayDims.2 + 2 * haloWidth), f)
      else (true, expected, f)
    else (false, expected, f)
  else (false, expected, f)

/-- Lines 141-149 of `DoTest`: the expected grid is initialised and the host stencil, built
here, is run on it. -/
def computeExpected (env : Env) (c : Config) (expected : Matrix2D) (f : Frame) :
    Except (Error × Frame) (Matrix2D × Frame) :=
  match call env (.Initialize .expected) f with
  | .error e => .error e
  | .ok f =>
    let expected := Initialize c.seed haloWidth c.haloVal expected
    match call env (.create .hostStencil) f with
    | .error e => .error e
    | .ok f =>
      let f := { f with stdStencil := some .hostStencil }
      match call env (.apply .hostStencil .expected c.nIters) f with
      | .error e => .error e
      | .ok f => .ok (Stencil.apply .hostStencil expected c.nIters, f)

/-- Lines 99-152 of `DoTest`: the expected grid is read from a file or computed on the host. -/
def establishExpected (env : Env) (opts : OptionParser) (c : Config) (f : Frame) :
    Except (Error × Frame) (Matrix2D × Frame) :=
  let loaded := loadExpected env opts c f
  let haveExpectedData := loaded.1
  if haveExpectedData then .ok (loaded.2.1, loaded.2.2)
  else computeExpected env c loaded.2.1 loaded.2.2

/-- The number of floating-point operations of a pass (lines 173-184): `npts` is an
`unsigned long` initialised from a `long long` product, `nflops` an `unsigned long` product. -/
def nflops (c : Config) : Nat :=
  let npts : Nat :=
    toUInt64 ((c.arrayDims.1 + 2 * haloWidth - 2) * (c.arrayDims.2 + 2 * haloWidth - 2))
  (npts * 11 * c.nIters) % 2 ^ 64

/-- The loop of lines 186-208: `remaining` iterations are left and `pass` is the counter. -/
def passLoop (env : Env) (timerDesc : String) (c : Config) (expected : Matrix2D) :
    (remaining : Nat) → (pass : Nat) → (data : Matrix2D) → Frame → Except (Error × Frame) Frame
  | 0, _, _, f => .ok f
  | remaining + 1, pass, data, f =>
    match call env (.Initialize (.data pass)) f with
    | .error e => .error e
    | .ok f =>
      let data := Initialize c.seed haloWidth c.haloVal data
      match call env (.apply .cudaStencil (.data pass) c.nIters) f with
      | .error e => .error e
      | .ok f =>
        let data := Stencil.apply .cudaStencil data c.nIters
        let elapsedTime := env.elapsedTime pass
        let f := f.AddResult
          ⟨timerDesc, c.experimentDescriptionStr, "GFLOPS", .gflops (nflops c) elapsedTime⟩
        let f := f.emit (.create (.validater pass))
        match call env (.ValidateResult pass expected data c.valErrThreshold c.nValErrsToPrint)
            f with
        | .error e => .error e
        | .ok f => passLoop env timerDesc c expected remaining (pass + 1) data f

/-- Lines 154-159 of `DoTest`: the expected grid is saved if a file is named for it. -/
def saveExpected (env : Env) (opts : OptionParser) (expected : Matrix2D) (f : Frame) :
    Except (Error × Frame) Frame :=
  let matrixFilenameBase := opts.getOptionString "saveExpMatrixFile"
  if matrixFilenameBase ≠ "" then
    call env (.SaveMatrixToFile expected (env.GetMatrixFileName matrixFilenameBase)) f
  else .ok f

/-- The `try` block of `DoTest` (lines 49-208). -/
def tryBlock (env : Env) (T : Precision) (timerDesc : String) (opts : OptionParser)
    (f : Frame) : Except (Error × Frame) Frame :=
  let f := { f.emit (.create .HostStencilFactory) with
             stdStencilFactory := some .HostStencilFactory }
  let f := { f.emit (.create .CUDAStencilFactory) with
             testStencilFactory := some .CUDAStencilFactory }
  match CheckOptions opts with
  | .error e => .error (e, f)
  | .ok _ =>
  match env.hostCheckOptions opts with
  | .error e => .error (e, f)
  | .ok _ =>
  match env.cudaCheckOptions opts with
  | .error e => .error (e, f)
  | .ok _ =>
  match extractOptions env T opts f with
  | .error e => .error e
  | .ok (c, f) =>
  match establishExpected env opts c f with
  | .error e => .error e
  | .ok (expected, f) =>
  match saveExpected env opts expected f with
  | .error e => .error e
  | .ok f =>
  -- lines 162-165; the `testStencil` declared on line 165 is a new variable of the `try`
  -- block: the pointer of line 47, which the clean-up deletes, is not assigned
  let data := Matrix2D.mk' (c.arrayDims.1 + 2 * haloWidth) (c.arrayDims.2 + 2 * haloWidth)
  match call env (.create .cudaStencil) f with
  | .error e => .error e
  | .ok f => passLoop env timerDesc c expected c.nPasses 0 data f

/-- The clean-up of lines 213-216 and 221-224. -/
def cleanUp (f : Frame) : Frame :=
  let f := delete f.stdStencil f
  let f := delete f.stdStencilFactory f
  let f := delete f.testStencil f
  delete f.testStencilFactory f

/-- The function template `DoTest<T>` (lines 41-225): the world it leaves and the exception it
throws, if any. -/
def DoTest (env : Env) (T : Precision) (timerDesc : String) (w : World)
    (opts : OptionParser) : World × Option Error :=
  match tryBlock env T timerDesc opts ⟨w, none, none, none, none⟩ with
  | .error (e, f) => ((cleanUp f).world, some e)
  | .ok f => ((cleanUp f).world, none)

/-! ## `RunBenchmark` -/

/-- The fields of `cudaDeviceProp` that `RunBenchmark` reads. -/
structure cudaDeviceProp where
  major : Int
  minor : Int

/-- The entry recorded on line 255. -/
def sentinel : Result := ⟨"DP_Sten2D", "N/A", "GFLOPS", .FLT_MAX⟩

/-- The loop of lines 254-256, `n` iterations being left. -/
def sentinelLoop : (n : Nat) → World → World
  | 0, w => w
  | n + 1, w =>
    sentinelLoop n
      { w with resultDB := w.resultDB ++ [sentinel], log := w.log ++ [.AddResult sentinel] }

/-- Lines 241-257 of `RunBenchmark`: the double-precision experiment, or its sentinels. -/
def doublePrecision (env : Env) (deviceProps : cudaDeviceProp) (w : World)
    (opts : OptionParser) : World × Option Error :=
  if (deviceProps.major = 1 ∧ deviceProps.minor ≥ 3) ∨ deviceProps.major ≥ 2 then
    let w := { w with log := w.log ++ [.SetAllocator .double] }
    DoTest env .double "DP_Sten2D" w opts
  else
    -- `int nPasses = (int)opts.getOptionInt("passes");`
    let nPasses := toInt32 (opts.getOptionInt "passes")
    (sentinelLoop nPasses.toNat w, none)

/-- The function `RunBenchmark` (lines 227-259); `env` gives the collaborators of each
instantiation of `DoTest`.  An exception of the single-precision experiment is not caught. -/
def RunBenchmark (env : Precision → Env) (deviceProps : cudaDeviceProp) (w : World)
    (opts : OptionParser) : World × Option Error :=
  let w := { w with log := w.log ++ [.SetAllocator .single] }
  match DoTest (env .single) .single "SP_Sten2D" w opts with
  | (w, some e) => (w, some e)
  | (w, none) => doublePrecision (env .double) deviceProps w opts

/-- Collaborators that accept every option set, know one standard size, have no expected-matrix
file to read and never throw. -/
def Env.plain : Env where
  hostCheckOptions := fun _ => .ok ()
  cudaCheckOptions := fun _ => .ok ()
  GetStandardProblemSize := fun _ => .ok (4, 4)
  GetMatrixFileName := fun base => base
  ReadMatrixFromFile := fun m _ => (false, m)
  elapsedTime := fun _ => .finite 1 0
  raises := fun _ => none

/-! ## Cells of a haloed grid -/

/-- The quantity the operation count is compared with, following the spec's description of a
grid (section 3) rather than the code: the number of cells of an `nRows x nCols` grid that are
not in the halo, counted one by one, i.e. the cells `(r, c)` with
`haloWidth <= r < nRows - haloWidth` and `haloWidth <= c < nCols - haloWidth`. -/
def interiorCells (nRows nCols haloWidth : Nat) : Nat :=
  ((Finset.range nRows ×ˢ Finset.range nCols).filter
    (fun p => haloWidth ≤ p.1 ∧ p.1 < nRows - haloWidth ∧
      haloWidth ≤ p.2 ∧ p.2 < nCols - haloWidth)).card

/-! ## Vocabulary for the effect of `DoTest` -/

/-- The frame in which a block ends, normally or by an exception. -/
def lastFrame : Except (Error × Frame) Frame → Frame
  | .ok f => f
  | .error (_, f) => f

/-- The result a pass records. -/
def passResult (env : Env) (timerDesc : String) (c : Config) (pass : Nat) : Result :=
  ⟨timerDesc, c.experimentDescriptionStr, "GFLOPS", .gflops (nflops c) (env.elapsedTime pass)⟩

/-- The calls a pass makes. -/
def PassEvent (env : Env) (timerDesc : String) (c : Config) (expected : Matrix2D)
    (ev : Event) : Prop :=
  (∃ p, ev = .Initialize (.data p)) ∨
  (∃ p, ev = .apply .cudaStencil (.data p) c.nIters) ∨
  (∃ p, ev = .AddResult (passResult env timerDesc c p)) ∨
  (∃ p, ev = .create (.validater p)) ∨
  (∃ p data, ev = .ValidateResult p expected data c.valErrThreshold c.nValErrsToPrint ∧
    data.nRows = c.arrayDims.1 + 2 * haloWidth ∧ data.nColumns = c.arrayDims.2 + 2 * haloWidth)

/-- The frame in which a block that yields a value ends, normally or by an exception. -/
def lastFrameOf {α : Type} : Except (Error × Frame) (α × Frame) → Frame
  | .ok (_, f) => f
  | .error (_, f) => f

/-- The calls made while the expected grid is established. -/
def ExpectedEvent (c : Config) (ev : Event) : Prop :=
  (∃ name, ev = .ReadMatrixFromFile name) ∨ ev = .Initialize .expected ∨
  ev = .create .hostStencil ∨ ev = .apply .hostStencil .expected c.nIters

/-- The dimensions of the expected grid when lines 112-140 are done: those the reader left if
a file is named and the read failed, the problem size plus the halo otherwise. -/
def expectedDims (env : Env) (opts : OptionParser) (c : Config) : Int × Int :=
  if opts.getOptionString "expMatrixFile" ≠ "" ∧
      (env.ReadMatrixFromFile
        (Matrix2D.mk' (c.arrayDims.1 + 2 * haloWidth) (c.arrayDims.2 + 2 * haloWidth))
        (env.GetMatrixFileName (opts.getOptionString "expMatrixFile"))).1 = false then
    ((env.ReadMatrixFromFile
        (Matrix2D.mk' (c.arrayDims.1 + 2 * haloWidth) (c.arrayDims.2 + 2 * haloWidth))
        (env.GetMatrixFileName (opts.getOptionString "expMatrixFile"))).2.nRows,
     (env.ReadMatrixFromFile
        (Matrix2D.mk' (c.arrayDims.1 + 2 * haloWidth) (c.arrayDims.2 + 2 * haloWidth))
        (env.GetMatrixFileName (opts.getOptionString "expMatrixFile"))).2.nColumns)
  else (c.arrayDims.1 + 2 * haloWidth, c.arrayDims.2 + 2 * haloWidth)

/-- The calls `DoTest` makes after it has created the two factories, for the configuration
`c`: the grid it hands to the validater as expected and to `SaveMatrixToFile` has the
dimensions `expectedDims`, and no call deletes the device stencil. -/
def DoTestEvent (env : Env) (opts : OptionParser) (timerDesc : String) (c : Config)
    (ev : Event) : Prop :=
  ExpectedEvent c ev ∨
  (∃ m name, ev = .SaveMatrixToFile m name ∧ m.nRows = (expectedDims env opts c).1 ∧
    m.nColumns = (expectedDims env opts c).2) ∨
  ev = .create .cudaStencil ∨
  (∃ expected, expected.nRows = (expectedDims env opts c).1 ∧
    expected.nColumns = (expectedDims env opts c).2 ∧
    PassEvent env timerDesc c expected ev) ∨
  ev = .delete .hostStencil ∨ ev = .delete .HostStencilFactory ∨
  ev = .delete .CUDAStencilFactory

/-! ## Collaborators used in the examples -/

/-- Collaborators like `Env.plain`, except that the validater throws. -/
def Env.failingValidater : Env :=
  { Env.plain with
    raises := fun ev =>
      match ev with
      | .ValidateResult _ _ _ _ _ => some (.other "validater")
      | _ => none }

end Stencil2D

/-! # The average-pooling layer (`avgpool_layer.c`)

Buffers are maps from index to value; values are rationals, so that the arithmetic is exact.
The buffers `l.output`, `l.delta`, `net.input` and `net.delta` are distinct allocations (see
`make_avgpool_layer`), so a write to one leaves the others as they are.  Index arithmetic on
`int` is kept exact: it would be undefined behaviour in the source if it overflowed. -/

namespace Darknet

/-- The fields of `avgpool_layer` used by the forward and backward pass. -/
structure avgpool_layer where
  batch : Int
  h : Int
  w : Int
  c : Int
  output : Int → ℚ
  delta : Int → ℚ

/-- The fields of `network` used by the forward and backward pass. -/
structure network where
  input : Int → ℚ
  delta : Int → ℚ

/-- The loop `for (i = 0; i < n; ++i) body`, acting on the state `s`. -/
def forLoop {σ : Type} (n : Int) (body : Int → σ → σ) (s : σ) : σ :=
  (List.range n.toNat).foldl (fun s (i : Nat) => body (i : Int) s) s

/-- The function `forward_avgpool_layer` (lines 87-102): the layer and the network after the
call. -/
def forward_avgpool_layer (l : avgpool_layer) (net : network) : avgpool_layer × network :=
  let output := forLoop l.batch (fun b output =>
    forLoop l.c (fun k output =>
      let out_index := k + b * l.c
      let output := Function.update output out_index 0
      let output := forLoop (l.h * l.w) (fun i output =>
        let in_index := i + l.h * l.w * (k + b * l.c)
        Function.update output out_index (output out_index + net.input in_index)) output
      Function.update output out_index (output out_index / ((l.h * l.w : Int) : ℚ)))
      output) l.output
  ({ l with output := output }, net)

/-- The function `backward_avgpool_layer` (lines 104-117): the layer and the network after the
call. -/
def backward_avgpool_layer (l : avgpool_layer) (net : network) : avgpool_layer × network :=
  let delta := forLoop l.batch (fun b delta =>
    forLoop l.c (fun k delta =>
      let out_index := k + b * l.c
      forLoop (l.h * l.w) (fun i delta =>
        let in_index := i + l.h * l.w * (k + b * l.c)
        Function.update delta in_index
          (delta in_index + l.delta out_index / ((l.h * l.w : Int) : ℚ))) delta)
      delta) net.delta
  (l, { net with delta := delta })

/-- The mean of the `h*w` inputs of window `o`. -/
def windowMean (l : avgpool_layer) (net : network) (o : Int) : ℚ :=
  (∑ i ∈ Finset.range (l.h * l.w).toNat, net.input ((i : Int) + l.h * l.w * o)) /
    ((l.h * l.w : Int) : ℚ)

/-- The body of the loop over `k` (lines 93-99). -/
def forwardCell (l : avgpool_layer) (net : network) (b k : Int) (output : Int → ℚ) : Int → ℚ :=
  let out_index := k + b * l.c
  let output := Function.update output out_index 0
  let output := forLoop (l.h * l.w) (fun i output =>
    let in_index := i + l.h * l.w * (k + b * l.c)
    Function.update output out_index (output out_index + net.input in_index)) output
  Function.update output out_index (output out_index / ((l.h * l.w : Int) : ℚ))

end Darknet

/-! # Properties of the Stencil2D driver -/

namespace Stencil2D

/-! ## Arithmetic -/

theorem interiorCells_eq (nRows nCols h : Nat) :
    interiorCells nRows nCols h = (nRows - h - h) * (nCols - h - h) := by
  unfold interiorCells
  have : (Finset.range nRows ×ˢ Finset.range nCols).filter
      (fun p => h ≤ p.1 ∧ p.1 < nRows - h ∧ h ≤ p.2 ∧ p.2 < nCols - h) =
      Finset.Ico h (nRows - h) ×ˢ Finset.Ico h (nCols - h) := by
    ext ⟨a, b⟩
    simp only [Finset.mem_filter, Finset.mem_product, Finset.mem_range, Finset.mem_Ico]
    omega
  rw [this, Finset.card_product, Nat.card_Ico, Nat.card_Ico]

theorem toInt32_of_range (v : Int) (hlo : -2 ^ 31 ≤ v) (hhi : v < 2 ^ 31) : toInt32 v = v := by
  unfold toInt32
  omega

theorem toInt32_nonneg_eq (v : Int) (h : 0 ≤ toInt32 v) : (toUInt32 v : Int) = toInt32 v := by
  unfold toInt32 toUInt32 at *
  omega

/-! ## The effect of the pass loop -/

theorem passLoop_spec (env : Env) (timerDesc : String) (c : Config) (expected : Matrix2D) :
    ∀ (n pass : Nat) (data : Matrix2D) (f : Frame),
      data.nRows = c.arrayDims.1 + 2 * haloWidth →
      data.nColumns = c.arrayDims.2 + 2 * haloWidth →
      ∃ (k : Nat) (added : List Event), k ≤ n ∧
        (∀ f', passLoop env timerDesc c expected n pass data f = .ok f' → k = n) ∧
        (∀ ev ∈ added, PassEvent env timerDesc c expected ev) ∧
        lastFrame (passLoop env timerDesc c expected n pass data f) =
          { f with world :=
            { f.world with
              resultDB := f.world.resultDB ++ (List.range' pass k).map (passResult env timerDesc c),
              log := f.world.log ++ added } } := by
  intro n
  induction n with
  | zero =>
    intro pass data f _ _
    exact ⟨0, [], le_refl _, fun _ _ => rfl, by simp, by simp [passLoop, lastFrame]⟩
  | succ n ih =>
    intro pass data f hr hc
    cases h1 : env.raises (.Initialize (.data pass)) with
    | some e =>
      exact ⟨0, [], Nat.zero_le _, by simp [passLoop, call, h1], by simp,
        by simp [passLoop, call, h1, lastFrame]⟩
    | none =>
      cases h2 : env.raises (.apply .cudaStencil (.data pass) c.nIters) with
      | some e =>
        refine ⟨0, [.Initialize (.data pass)], Nat.zero_le _, by simp [passLoop, call, h1, h2],
          ?_, by simp [passLoop, call, h1, h2, lastFrame, Frame.emit]⟩
        intro ev hev
        simp only [List.mem_singleton] at hev
        exact Or.inl ⟨pass, hev⟩
      | none =>
        cases h3 : env.raises (.ValidateResult pass expected
            (Stencil.apply .cudaStencil (Initialize c.seed haloWidth c.haloVal data) c.nIters)
            c.valErrThreshold c.nValErrsToPrint) with
        | some e =>
          refine ⟨1, [.Initialize (.data pass), .apply .cudaStencil (.data pass) c.nIters,
            .AddResult (passResult env timerDesc c pass), .create (.validater pass)],
            by omega, by simp [passLoop, call, h1, h2, h3], ?_,
            by simp [passLoop, call, h1, h2, h3, lastFrame, Frame.emit, Frame.AddResult,
              passResult]⟩
          intro ev hev
          simp only [List.mem_cons, List.mem_singleton, List.not_mem_nil, or_false] at hev
          rcases hev with h | h | h | h
          · exact Or.inl ⟨pass, h⟩
          · exact Or.inr (Or.inl ⟨pass, h⟩)
          · exact Or.inr (Or.inr (Or.inl ⟨pass, h⟩))
          · exact Or.inr (Or.inr (Or.inr (Or.inl ⟨pass, h⟩)))
        | none =>
          obtain ⟨k, added, hk, hok, hev, hlast⟩ := ih (pass + 1)
            (Stencil.apply .cudaStencil (Initialize c.seed haloWidth c.haloVal data) c.nIters)
            (((((f.emit (.Initialize (.data pass))).emit
              (.apply .cudaStencil (.data pass) c.nIters)).AddResult
              (passResult env timerDesc c pass)).emit (.create (.validater pass))).emit
              (.ValidateResult pass expected
                (Stencil.apply .cudaStencil (Initialize c.seed haloWidth c.haloVal data) c.nIters)
                c.valErrThreshold c.nValErrsToPrint))
            (by simpa [Stencil.apply, Initialize] using hr)
            (by simpa [Stencil.apply, Initialize] using hc)
          have hstep : passLoop env timerDesc c expected (n + 1) pass data f =
              passLoop env timerDesc c expected n (pass + 1)
                (Stencil.apply .cudaStencil (Initialize c.seed haloWidth c.haloVal data) c.nIters)
                (((((f.emit (.Initialize (.data pass))).emit
                  (.apply .cudaStencil (.data pass) c.nIters)).AddResult
                  (passResult env timerDesc c pass)).emit (.create (.validater pass))).emit
                  (.ValidateResult pass expected
                    (Stencil.apply .cudaStencil (Initialize c.seed haloWidth c.haloVal data)
                      c.nIters)
                    c.valErrThreshold c.nValErrsToPrint)) := by
            simp [passLoop, call, h1, h2, h3, passResult]
          refine ⟨k + 1, [.Initialize (.data pass), .apply .cudaStencil (.data pass) c.nIters,
            .AddResult (passResult env timerDesc c pass), .create (.validater pass),
            .ValidateResult pass expected
              (Stencil.apply .cudaStencil (Initialize c.seed haloWidth c.haloVal data) c.nIters)
              c.valErrThreshold c.nValErrsToPrint] ++ added, by omega, ?_, ?_, ?_⟩
          · intro f' hf'
            rw [hstep] at hf'
            rw [hok f' hf']
          · intro ev hmem
            rw [List.mem_append] at hmem
            rcases hmem with hmem | hmem
            · simp only [List.mem_cons, List.mem_singleton, List.not_mem_nil, or_false] at hmem
              rcases hmem with h | h | h | h | h
              · exact Or.inl ⟨pass, h⟩
              · exact Or.inr (Or.inl ⟨pass, h⟩)
              · exact Or.inr (Or.inr (Or.inl ⟨pass, h⟩))
              · exact Or.inr (Or.inr (Or.inr (Or.inl ⟨pass, h⟩)))
              · exact Or.inr (Or.inr (Or.inr (Or.inr ⟨pass, _, h,
                  by simpa [Stencil.apply, Initialize] using hr,
                  by simpa [Stencil.apply, Initialize] using hc⟩)))
            · exact hev ev hmem
          · rw [hstep, hlast]
            simp [Frame.emit, Frame.AddResult, List.range'_succ, List.append_assoc]

/-! ## The effect of establishing the expected grid -/

theorem loadExpected_frame (env : Env) (opts : OptionParser) (c : Config) (f : Frame) :
    ∃ added : List Event, (∀ ev ∈ added, ExpectedEvent c ev) ∧
      (loadExpected env opts c f).2.2 =
        { f with world := { f.world with log := f.world.log ++ added } } := by
  unfold loadExpected
  by_cases hb : opts.getOptionString "expMatrixFile" = ""
  · exact ⟨[], by simp, by simp [hb]⟩
  · refine ⟨[.ReadMatrixFromFile (env.GetMatrixFileName (opts.getOptionString "expMatrixFile"))],
      ?_, ?_⟩
    · intro ev hev
      simp only [List.mem_singleton] at hev
      exact Or.inl ⟨_, hev⟩
    · simp only [ne_eq, hb, not_false_eq_true, ↓reduceIte]
      split
      · split <;> simp [Frame.emit]
      · simp [Frame.emit]

theorem loadExpected_dims (env : Env) (opts : OptionParser) (c : Config) (f : Frame) :
    (loadExpected env opts c f).2.1.nRows = (expectedDims env opts c).1 ∧
    (loadExpected env opts c f).2.1.nColumns = (expectedDims env opts c).2 := by
  unfold loadExpected expectedDims
  by_cases hb : opts.getOptionString "expMatrixFile" = ""
  · simp [hb, Matrix2D.mk']
  · simp only [ne_eq, hb, not_false_eq_true, ↓reduceIte, true_and]
    cases hr : (env.ReadMatrixFromFile
        (Matrix2D.mk' (c.arrayDims.1 + 2 * haloWidth) (c.arrayDims.2 + 2 * haloWidth))
        (env.GetMatrixFileName (opts.getOptionString "expMatrixFile"))).1 with
    | false => simp
    | true =>
      by_cases hd : (env.ReadMatrixFromFile
          (Matrix2D.mk' (c.arrayDims.1 + 2 * haloWidth) (c.arrayDims.2 + 2 * haloWidth))
          (env.GetMatrixFileName (opts.getOptionString "expMatrixFile"))).2.nRows ≠
            c.arrayDims.1 + 2 * haloWidth ∨
          (env.ReadMatrixFromFile
          (Matrix2D.mk' (c.arrayDims.1 + 2 * haloWidth) (c.arrayDims.2 + 2 * haloWidth))
          (env.GetMatrixFileName (opts.getOptionString "expMatrixFile"))).2.nColumns ≠
            c.arrayDims.2 + 2 * haloWidth
      · simp [hd, Matrix2D.Reset]
      · simp only [hd, ↓reduceIte]
        simp only [ne_eq, not_or, not_not] at hd
        simpa using hd

theorem computeExpected_frame (env : Env) (c : Config) (expected : Matrix2D) (f : Frame) :
    ∃ (added : List Event) (sp : Option Obj), (∀ ev ∈ added, ExpectedEvent c ev) ∧
      (sp = f.stdStencil ∨ sp = some .hostStencil) ∧
      lastFrameOf (computeExpected env c expected f) =
        { f with world := { f.world with log := f.world.log ++ added }, stdStencil := sp } := by
  unfold computeExpected
  cases h1 : env.raises (.Initialize .expected) with
  | some e => exact ⟨[], f.stdStencil, by simp, Or.inl rfl, by simp [call, h1, lastFrameOf]⟩
  | none =>
    cases h2 : env.raises (.create .hostStencil) with
    | some e =>
      refine ⟨[.Initialize .expected], f.stdStencil, ?_, Or.inl rfl,
        by simp [call, h1, h2, lastFrameOf, Frame.emit]⟩
      intro ev hev
      simp only [List.mem_singleton] at hev
      exact Or.inr (Or.inl hev)
    | none =>
      cases h3 : env.raises (.apply .hostStencil .expected c.nIters) with
      | some e =>
        refine ⟨[.Initialize .expected, .create .hostStencil], some .hostStencil, ?_, Or.inr rfl,
          by simp [call, h1, h2, h3, lastFrameOf, Frame.emit]⟩
        intro ev hev
        simp only [List.mem_cons, List.mem_singleton, List.not_mem_nil, or_false] at hev
        rcases hev with h | h
        · exact Or.inr (Or.inl h)
        · exact Or.inr (Or.inr (Or.inl h))
      | none =>
        refine ⟨[.Initialize .expected, .create .hostStencil,
          .apply .hostStencil .expected c.nIters], some .hostStencil, ?_, Or.inr rfl,
          by simp [call, h1, h2, h3, lastFrameOf, Frame.emit]⟩
        intro ev hev
        simp only [List.mem_cons, List.mem_singleton, List.not_mem_nil, or_false] at hev
        rcases hev with h | h | h
        · exact Or.inr (Or.inl h)
        · exact Or.inr (Or.inr (Or.inl h))
        · exact Or.inr (Or.inr (Or.inr h))

theorem computeExpected_ok (env : Env) (c : Config) (expected : Matrix2D) (f : Frame)
    (m : Matrix2D) (f' : Frame) (h : computeExpected env c expected f = .ok (m, f')) :
    m = ⟨expected.nRows, expected.nColumns,
          .stencilled .hostStencil c.nIters (.initialized c.seed haloWidth c.haloVal)⟩ ∧
    f' = { f with
           world := { f.world with log := f.world.log ++ [.Initialize .expected,
             .create .hostStencil, .apply .hostStencil .expected c.nIters] },
           stdStencil := some .hostStencil } := by
  unfold computeExpected at h
  cases h1 : env.raises (.Initialize .expected) with
  | some e => simp [call, h1] at h
  | none =>
    cases h2 : env.raises (.create .hostStencil) with
    | some e => simp [call, h1, h2] at h
    | none =>
      cases h3 : env.raises (.apply .hostStencil .expected c.nIters) with
      | some e => simp [call, h1, h2, h3] at h
      | none =>
        simp only [call, h1, h2, h3, Except.ok.injEq, Prod.mk.injEq] at h
        obtain ⟨hm, hf⟩ := h
        subst hm hf
        simp [Stencil.apply, Initialize, Frame.emit]

theorem establishExpected_frame (env : Env) (opts : OptionParser) (c : Config) (f : Frame) :
    ∃ (added : List Event) (sp : Option Obj), (∀ ev ∈ added, ExpectedEvent c ev) ∧
      (sp = f.stdStencil ∨ sp = some .hostStencil) ∧
      lastFrameOf (establishExpected env opts c f) =
        { f with world := { f.world with log := f.world.log ++ added }, stdStencil := sp } := by
  obtain ⟨a1, ha1, hl⟩ := loadExpected_frame env opts c f
  unfold establishExpected
  by_cases hh : (loadExpected env opts c f).1 = true
  · refine ⟨a1, f.stdStencil, ha1, Or.inl rfl, ?_⟩
    simp [hh, lastFrameOf, hl]
  · obtain ⟨a2, sp, ha2, hsp, hc⟩ := computeExpected_frame env c (loadExpected env opts c f).2.1
      (loadExpected env opts c f).2.2
    refine ⟨a1 ++ a2, sp, ?_, ?_, ?_⟩
    · intro ev hev
      rcases List.mem_append.1 hev with h | h
      · exact ha1 ev h
      · exact ha2 ev h
    · rw [hl] at hsp
      exact hsp
    · simp only [hh, Bool.false_eq_true, ↓reduceIte, hc]
      rw [hl]
      simp [List.append_assoc]

theorem establishExpected_dims (env : Env) (opts : OptionParser) (c : Config) (f : Frame)
    (m : Matrix2D) (f' : Frame) (h : establishExpected env opts c f = .ok (m, f')) :
    m.nRows = (expectedDims env opts c).1 ∧ m.nColumns = (expectedDims env opts c).2 := by
  have hd := loadExpected_dims env opts c f
  unfold establishExpected at h
  by_cases hh : (loadExpected env opts c f).1 = true
  · simp only [hh, ↓reduceIte, Except.ok.injEq, Prod.mk.injEq] at h
    rw [← h.1]
    exact hd
  · simp only [hh, Bool.false_eq_true, ↓reduceIte] at h
    have := (computeExpected_ok env c _ _ m f' h).1
    rw [this]
    exact hd

/-! ## The effect of `DoTest` -/

theorem forall_mem_append_of {P : Event → Prop} {a b : List Event}
    (ha : ∀ ev ∈ a, P ev) (hb : ∀ ev ∈ b, P ev) : ∀ ev ∈ a ++ b, P ev := by
  intro ev hev
  rcases List.mem_append.1 hev with h | h
  · exact ha ev h
  · exact hb ev h

theorem saveExpected_spec (env : Env) (opts : OptionParser) (expected : Matrix2D) (f : Frame) :
    ∃ added : List Event,
      (∀ ev ∈ added, ∃ name, ev = .SaveMatrixToFile expected name) ∧
      lastFrame (saveExpected env opts expected f) =
        { f with world := { f.world with log := f.world.log ++ added } } := by
  unfold saveExpected
  by_cases hb : opts.getOptionString "saveExpMatrixFile" = ""
  · exact ⟨[], by simp, by simp [hb, lastFrame]⟩
  · cases h1 : env.raises (.SaveMatrixToFile expected
        (env.GetMatrixFileName (opts.getOptionString "saveExpMatrixFile"))) with
    | some e => exact ⟨[], by simp, by simp [hb, call, h1, lastFrame]⟩
    | none =>
      exact ⟨[.SaveMatrixToFile expected
        (env.GetMatrixFileName (opts.getOptionString "saveExpMatrixFile"))],
        by simp, by simp [hb, call, h1, lastFrame, Frame.emit]⟩

theorem extractOptions_ok (env : Env) (T : Precision) (opts : OptionParser) (f : Frame)
    (dims : Int × Int) (hd : arrayDims env (f.world.statics T) opts = .ok dims) :
    ∃ st, extractOptions env T opts f =
      .ok (config (f.world.statics T) opts dims,
        { f with world := { f.world with statics := st } }) := by
  refine ⟨(lastFrameOf (extractOptions env T opts f)).world.statics, ?_⟩
  simp [extractOptions, hd, Frame.setStatics, lastFrameOf]

theorem tryBlock_spec (env : Env) (T : Precision) (timerDesc : String) (w : World)
    (opts : OptionParser) (dims : Int × Int)
    (hd : arrayDims env (w.statics T) opts = .ok dims) :
    ∃ (k : Nat) (added : List Event) (sp : Option Obj) (st : Precision → Statics),
      k ≤ (config (w.statics T) opts dims).nPasses ∧
      (∀ f', tryBlock env T timerDesc opts ⟨w, none, none, none, none⟩ = .ok f' →
        k = (config (w.statics T) opts dims).nPasses) ∧
      (∀ ev ∈ added, DoTestEvent env opts timerDesc (config (w.statics T) opts dims) ev) ∧
      (sp = none ∨ sp = some .hostStencil) ∧
      lastFrame (tryBlock env T timerDesc opts ⟨w, none, none, none, none⟩) =
        ⟨⟨w.resultDB ++ (List.range' 0 k).map
            (passResult env timerDesc (config (w.statics T) opts dims)),
          w.log ++ [.create .HostStencilFactory, .create .CUDAStencilFactory] ++ added, st⟩,
         some .HostStencilFactory, sp, some .CUDAStencilFactory, none⟩ := by
  unfold tryBlock
  cases hc1 : CheckOptions opts with
  | error e =>
    exact ⟨0, [], none, w.statics, Nat.zero_le _, by simp, by simp, Or.inl rfl,
      by simp [lastFrame, Frame.emit]⟩
  | ok u1 =>
  cases hc2 : env.hostCheckOptions opts with
  | error e =>
    exact ⟨0, [], none, w.statics, Nat.zero_le _, by simp, by simp, Or.inl rfl,
      by simp [lastFrame, Frame.emit]⟩
  | ok u2 =>
  cases hc3 : env.cudaCheckOptions opts with
  | error e =>
    exact ⟨0, [], none, w.statics, Nat.zero_le _, by simp, by simp, Or.inl rfl,
      by simp [lastFrame, Frame.emit]⟩
  | ok u3 =>
  obtain ⟨st, hext⟩ := extractOptions_ok env T opts
    ⟨⟨w.resultDB, w.log ++ [.create .HostStencilFactory, .create .CUDAStencilFactory],
      w.statics⟩, some .HostStencilFactory, none, some .CUDAStencilFactory, none⟩ dims hd
  simp only [Frame.emit, List.append_assoc, List.singleton_append] at hext ⊢
  simp only [hext]
  obtain ⟨a1, sp, ha1, hsp, hl1⟩ := establishExpected_frame env opts
    (config (w.statics T) opts dims)
    ⟨⟨w.resultDB, w.log ++ [.create .HostStencilFactory, .create .CUDAStencilFactory], st⟩,
      some .HostStencilFactory, none, some .CUDAStencilFactory, none⟩
  have ha1' : ∀ ev ∈ a1, DoTestEvent env opts timerDesc (config (w.statics T) opts dims) ev :=
    fun ev hev => Or.inl (ha1 ev hev)
  cases he : establishExpected env opts (config (w.statics T) opts dims)
    ⟨⟨w.resultDB, w.log ++ [.create .HostStencilFactory, .create .CUDAStencilFactory], st⟩,
      some .HostStencilFactory, none, some .CUDAStencilFactory, none⟩ with
  | error ef =>
    obtain ⟨e, f'⟩ := ef
    rw [he] at hl1
    simp only [lastFrameOf] at hl1
    exact ⟨0, a1, sp, st, Nat.zero_le _, by simp, ha1', hsp, by simp [lastFrame, hl1]⟩
  | ok mf =>
  obtain ⟨expected, f3⟩ := mf
  obtain ⟨hrows, hcols⟩ := establishExpected_dims env opts _ _ expected f3 he
  rw [he] at hl1
  simp only [lastFrameOf] at hl1
  subst hl1
  simp only
  obtain ⟨a2, ha2, hl2⟩ := saveExpected_spec env opts expected
    ⟨⟨w.resultDB, w.log ++ [.create .HostStencilFactory, .create .CUDAStencilFactory] ++ a1, st⟩,
      some .HostStencilFactory, sp, some .CUDAStencilFactory, none⟩
  have ha2' : ∀ ev ∈ a2, DoTestEvent env opts timerDesc (config (w.statics T) opts dims) ev := by
    intro ev hev
    obtain ⟨name, hname⟩ := ha2 ev hev
    exact Or.inr (Or.inl ⟨expected, name, hname, hrows, hcols⟩)
  cases hs : saveExpected env opts expected
    ⟨⟨w.resultDB, w.log ++ [.create .HostStencilFactory, .create .CUDAStencilFactory] ++ a1, st⟩,
      some .HostStencilFactory, sp, some .CUDAStencilFactory, none⟩ with
  | error ef =>
    obtain ⟨e, f'⟩ := ef
    rw [hs] at hl2
    simp only [lastFrame] at hl2
    exact ⟨0, a1 ++ a2, sp, st, Nat.zero_le _, by simp, forall_mem_append_of ha1' ha2', hsp,
      by simp [lastFrame, hl2]⟩
  | ok f4 =>
  rw [hs] at hl2
  simp only [lastFrame] at hl2
  subst hl2
  simp only
  cases hb : env.raises (.create .cudaStencil) with
  | some e =>
    exact ⟨0, a1 ++ a2, sp, st, Nat.zero_le _, by simp [call, hb],
      forall_mem_append_of ha1' ha2', hsp, by simp [call, hb, lastFrame]⟩
  | none =>
  obtain ⟨k, a3, hk, hok, ha3, hl3⟩ := passLoop_spec env timerDesc
    (config (w.statics T) opts dims) expected (config (w.statics T) opts dims).nPasses 0
    (Matrix2D.mk' ((config (w.statics T) opts dims).arrayDims.1 + 2 * haloWidth)
      ((config (w.statics T) opts dims).arrayDims.2 + 2 * haloWidth))
    ⟨⟨w.resultDB, w.log ++ [.create .HostStencilFactory, .create .CUDAStencilFactory] ++ a1 ++ a2
      ++ [.create .cudaStencil], st⟩,
      some .HostStencilFactory, sp, some .CUDAStencilFactory, none⟩ rfl rfl
  have ha3' : ∀ ev ∈ a3, DoTestEvent env opts timerDesc (config (w.statics T) opts dims) ev :=
    fun ev hev => Or.inr (Or.inr (Or.inr (Or.inl ⟨expected, hrows, hcols, ha3 ev hev⟩)))
  have hb' : ∀ ev ∈ [Event.create .cudaStencil],
      DoTestEvent env opts timerDesc (config (w.statics T) opts dims) ev := by
    intro ev hev
    simp only [List.mem_singleton] at hev
    exact Or.inr (Or.inr (Or.inl hev))
  simp only [call, hb, Frame.emit]
  refine ⟨k, a1 ++ a2 ++ [.create .cudaStencil] ++ a3, sp, st, hk, hok,
    forall_mem_append_of (forall_mem_append_of (forall_mem_append_of ha1' ha2') hb') ha3', hsp, ?_⟩
  rw [hl3]
  simp [List.append_assoc]

theorem tryBlock_no_size (env : Env) (T : Precision) (timerDesc : String) (w : World)
    (opts : OptionParser) (e : Error) (hd : arrayDims env (w.statics T) opts = .error e) :
    ∃ (e' : Error) (st : Precision → Statics),
      tryBlock env T timerDesc opts ⟨w, none, none, none, none⟩ =
        .error (e', ⟨⟨w.resultDB,
          w.log ++ [.create .HostStencilFactory, .create .CUDAStencilFactory], st⟩,
          some .HostStencilFactory, none, some .CUDAStencilFactory, none⟩) := by
  unfold tryBlock
  cases hc1 : CheckOptions opts with
  | error e1 => exact ⟨e1, w.statics, by simp [Frame.emit]⟩
  | ok u1 =>
  cases hc2 : env.hostCheckOptions opts with
  | error e2 => exact ⟨e2, w.statics, by simp [Frame.emit]⟩
  | ok u2 =>
  cases hc3 : env.cudaCheckOptions opts with
  | error e3 => exact ⟨e3, w.statics, by simp [Frame.emit]⟩
  | ok u3 =>
    refine ⟨e, Function.update w.statics T
      { (w.statics T) with matrixArr := some (matrixArr (w.statics T) opts) }, ?_⟩
    simp [extractOptions, hd, Frame.setStatics, Frame.emit]

theorem DoTest_spec (env : Env) (T : Precision) (timerDesc : String) (w : World)
    (opts : OptionParser) (dims : Int × Int)
    (hd : arrayDims env (w.statics T) opts = .ok dims) :
    ∃ (k : Nat) (added : List Event) (st : Precision → Statics),
      k ≤ (config (w.statics T) opts dims).nPasses ∧
      ((DoTest env T timerDesc w opts).2 = none →
        k = (config (w.statics T) opts dims).nPasses) ∧
      (∀ ev ∈ added, DoTestEvent env opts timerDesc (config (w.statics T) opts dims) ev) ∧
      (DoTest env T timerDesc w opts).1 =
        ⟨w.resultDB ++ (List.range' 0 k).map
            (passResult env timerDesc (config (w.statics T) opts dims)),
          w.log ++ [.create .HostStencilFactory, .create .CUDAStencilFactory] ++ added, st⟩ := by
  obtain ⟨k, added, sp, st, hk, hok, hev, hsp, hl⟩ := tryBlock_spec env T timerDesc w opts dims hd
  have hdel : ∀ ev ∈ [Event.delete .HostStencilFactory, .delete .CUDAStencilFactory],
      DoTestEvent env opts timerDesc (config (w.statics T) opts dims) ev := by
    intro ev hmem
    simp only [List.mem_cons, List.mem_singleton, List.not_mem_nil, or_false] at hmem
    rcases hmem with h | h
    · exact Or.inr (Or.inr (Or.inr (Or.inr (Or.inr (Or.inl h)))))
    · exact Or.inr (Or.inr (Or.inr (Or.inr (Or.inr (Or.inr h)))))
  have hdel' : ∀ ev ∈ [Event.delete .hostStencil],
      DoTestEvent env opts timerDesc (config (w.statics T) opts dims) ev := by
    intro ev hmem
    simp only [List.mem_singleton] at hmem
    exact Or.inr (Or.inr (Or.inr (Or.inr (Or.inl hmem))))
  have hworld : (DoTest env T timerDesc w opts).1 =
      (cleanUp (lastFrame (tryBlock env T timerDesc opts ⟨w, none, none, none, none⟩))).world := by
    unfold DoTest
    cases tryBlock env T timerDesc opts ⟨w, none, none, none, none⟩ with
    | error ef => rfl
    | ok f => rfl
  have hnone : (DoTest env T timerDesc w opts).2 = none →
      ∃ f', tryBlock env T timerDesc opts ⟨w, none, none, none, none⟩ = .ok f' := by
    unfold DoTest
    cases tryBlock env T timerDesc opts ⟨w, none, none, none, none⟩ with
    | error ef => simp
    | ok f => intro _; exact ⟨f, rfl⟩
  rcases hsp with hsp | hsp
  · refine ⟨k, added ++ [.delete .HostStencilFactory, .delete .CUDAStencilFactory], st, hk, ?_,
      forall_mem_append_of hev hdel, ?_⟩
    · intro h
      obtain ⟨f', hf'⟩ := hnone h
      exact hok f' hf'
    · rw [hworld, hl, hsp]
      simp [cleanUp, delete, Frame.emit, List.append_assoc]
  · refine ⟨k, added ++ ([.delete .hostStencil] ++
      [.delete .HostStencilFactory, .delete .CUDAStencilFactory]), st, hk, ?_,
      forall_mem_append_of hev (forall_mem_append_of hdel' hdel), ?_⟩
    · intro h
      obtain ⟨f', hf'⟩ := hnone h
      exact hok f' hf'
    · rw [hworld, hl, hsp]
      simp [cleanUp, delete, Frame.emit, List.append_assoc]

theorem DoTestEvent_validate (env : Env) (opts : OptionParser) (timerDesc : String) (c : Config) (pass : Nat)
    (expected data : Matrix2D) (thr : FloatVal) (lim : Nat)
    (h : DoTestEvent env opts timerDesc c (.ValidateResult pass expected data thr lim)) :
    expected.nRows = (expectedDims env opts c).1 ∧
    expected.nColumns = (expectedDims env opts c).2 ∧
    data.nRows = c.arrayDims.1 + 2 * haloWidth ∧
    data.nColumns = c.arrayDims.2 + 2 * haloWidth ∧
    thr = c.valErrThreshold ∧ lim = c.nValErrsToPrint := by
  rcases h with h | h | h | h | h | h | h
  · rcases h with ⟨_, h⟩ | h | h | h <;> simp at h
  · obtain ⟨_, _, h, _⟩ := h
    simp at h
  · simp at h
  · obtain ⟨e, her, hec, h⟩ := h
    rcases h with ⟨_, h⟩ | ⟨_, h⟩ | ⟨_, h⟩ | ⟨_, h⟩ | ⟨p, d, h, hdr, hdc⟩
    · simp at h
    · simp at h
    · simp at h
    · simp at h
    · simp only [Event.ValidateResult.injEq] at h
      obtain ⟨_, he, hd, ht, hl⟩ := h
      subst he hd
      exact ⟨her, hec, hdr, hdc, ht, hl⟩
  · simp at h
  · simp at h
  · simp at h

theorem sentinelLoop_eq (n : Nat) (w : World) :
    sentinelLoop n w =
      ⟨w.resultDB ++ List.replicate n sentinel,
       w.log ++ List.replicate n (.AddResult sentinel), w.statics⟩ := by
  induction n generalizing w with
  | zero => simp [sentinelLoop]
  | succ n ih =>
    rw [sentinelLoop, ih]
    simp [List.replicate_succ, List.append_assoc]

theorem DoTest_results (env : Env) (T : Precision) (timerDesc : String) (w : World)
    (opts : OptionParser) :
    ∃ added : List Result,
      (DoTest env T timerDesc w opts).1.resultDB = w.resultDB ++ added ∧
      added.length ≤ toUInt32 (opts.getOptionInt "passes") ∧
      ((DoTest env T timerDesc w opts).2 = none →
        added.length = toUInt32 (opts.getOptionInt "passes")) ∧
      ∀ r ∈ added, r.test = timerDesc ∧ r.unit = "GFLOPS" ∧ ∃ n t, r.value = .gflops n t := by
  cases hd : arrayDims env (w.statics T) opts with
  | error e =>
    obtain ⟨e', st, ht⟩ := tryBlock_no_size env T timerDesc w opts e hd
    refine ⟨[], by simp [DoTest, ht, cleanUp, delete, Frame.emit], Nat.zero_le _,
      by simp [DoTest, ht], by simp⟩
  | ok dims =>
    obtain ⟨k, added, st, hk, hok, _, hw⟩ := DoTest_spec env T timerDesc w opts dims hd
    refine ⟨(List.range' 0 k).map (passResult env timerDesc (config (w.statics T) opts dims)),
      by rw [hw], by simpa using hk, ?_, ?_⟩
    · intro h
      simpa using hok h
    · intro r hr
      obtain ⟨p, _, hp⟩ := List.mem_map.1 hr
      subst hp
      exact ⟨rfl, rfl, _, _, rfl⟩

/-! ## Properties of `CheckOptions` -/

/-- Claim C1, as stated, fails: with the registered defaults `matrixRows` and `matrixCols` are
both `0`, hence non-positive, and the stencil-independent `CheckOptions` raises nothing. -/
theorem CheckOptions_accepts_zero_dims :
    (addBenchmarkSpecOptions 10 1 false).getOptionInt "matrixRows" ≤ 0 ∧
    (addBenchmarkSpecOptions 10 1 false).getOptionInt "matrixCols" ≤ 0 ∧
    CheckOptions (addBenchmarkSpecOptions 10 1 false) = .ok () := by
  decide

/-- Claim C1, amended: the stencil-independent `CheckOptions` fails with the invalid-argument
error "Each size dimension must be positive" exactly when `matrixRows` or `matrixCols` is
negative; a dimension of zero is not rejected by this check. -/
theorem CheckOptions_size_error_iff (opts : OptionParser) :
    CheckOptions opts = .error (.InvalidArgValue "Each size dimension must be positive") ↔
      (opts.getOptionInt "matrixRows" < 0 ∨ opts.getOptionInt "matrixCols" < 0) := by
  unfold CheckOptions
  by_cases hneg : opts.getOptionInt "matrixRows" < 0 ∨ opts.getOptionInt "matrixCols" < 0
  · simp [hneg]
  · by_cases hthr : (opts.getOptionFloat "val-threshold").leZero = true
    · simp [hneg, hthr]
    · by_cases hlim : toInt32 (opts.getOptionInt "val-print-limit") < 0
      · simp [hneg, hthr, hlim]
      · simp [hneg, hthr, hlim]

/-- Claim C1, amended, at concrete option sets: `matrixRows = -1` is rejected with the size
error, and `matrixRows = 0` with `matrixCols = 512` is not. -/
theorem CheckOptions_size_error_iff_witness :
    CheckOptions ((addBenchmarkSpecOptions 10 1 false).setInt "matrixRows" (-1)) =
      .error (.InvalidArgValue "Each size dimension must be positive") ∧
    CheckOptions ((addBenchmarkSpecOptions 10 1 false).setInt "matrixCols" 512) ≠
      .error (.InvalidArgValue "Each size dimension must be positive") :=
  ⟨(CheckOptions_size_error_iff _).2 (Or.inl (by decide)),
   fun h => absurd ((CheckOptions_size_error_iff _).1 h) (by decide)⟩

/-- The checks of lines 300-312 in terms of the value `CheckOptions` reads into
`int nErrsToPrint`: it raises `InvalidArgValue` whenever the validation threshold is `<= 0` or
that value is `< 0`, and raises nothing when both matrix dimensions are positive, the threshold
is `> 0` and that value is `>= 0`. -/
theorem CheckOptions_as_read (opts : OptionParser) :
    (((opts.getOptionFloat "val-threshold").leZero = true ∨
        toInt32 (opts.getOptionInt "val-print-limit") < 0) →
      ∃ msg, CheckOptions opts = .error (.InvalidArgValue msg)) ∧
    ((0 < opts.getOptionInt "matrixRows" ∧ 0 < opts.getOptionInt "matrixCols" ∧
        (opts.getOptionFloat "val-threshold").gtZero = true ∧
        0 ≤ toInt32 (opts.getOptionInt "val-print-limit")) →
      CheckOptions opts = .ok ()) ∧
    ((0 < opts.getOptionInt "matrixRows" ∧ 0 < opts.getOptionInt "matrixCols" ∧
        (opts.getOptionFloat "val-threshold").gtZero = true ∧
        opts.getOptionInt "val-print-limit" = 0) →
      CheckOptions opts = .ok ()) ∧
    ((∃ e, opts.getOptionFloat "val-threshold" = .finite 0 e) →
      ∃ msg, CheckOptions opts = .error (.InvalidArgValue msg)) := by
  have key : ∀ x : FloatVal, x.gtZero = true → x.leZero = false := by
    intro x hx
    cases x <;> simp_all [FloatVal.gtZero, FloatVal.leZero]
  refine ⟨?_, ?_, ?_, ?_⟩
  · intro h
    by_cases hneg : opts.getOptionInt "matrixRows" < 0 ∨ opts.getOptionInt "matrixCols" < 0
    · simp only [CheckOptions, hneg, ↓reduceIte]
      exact ⟨_, rfl⟩
    · by_cases hthr : (opts.getOptionFloat "val-threshold").leZero = true
      · simp only [CheckOptions, hneg, hthr, ↓reduceIte]
        exact ⟨_, rfl⟩
      · have hlim : toInt32 (opts.getOptionInt "val-print-limit") < 0 := by
          rcases h with h | h
          · exact absurd h hthr
          · exact h
        simp only [CheckOptions, hneg, hthr, hlim, ↓reduceIte]
        exact ⟨_, rfl⟩
  · rintro ⟨hr, hc, ht, hl⟩
    have hneg : ¬ (opts.getOptionInt "matrixRows" < 0 ∨ opts.getOptionInt "matrixCols" < 0) := by
      omega
    simp [CheckOptions, hneg, key _ ht, hl]
  · rintro ⟨hr, hc, ht, hl⟩
    have hneg : ¬ (opts.getOptionInt "matrixRows" < 0 ∨ opts.getOptionInt "matrixCols" < 0) := by
      omega
    simp [CheckOptions, hneg, key _ ht, hl, toInt32]
  · rintro ⟨e, he⟩
    by_cases hneg : opts.getOptionInt "matrixRows" < 0 ∨ opts.getOptionInt "matrixCols" < 0
    · simp only [CheckOptions, hneg, ↓reduceIte]
      exact ⟨_, rfl⟩
    · have hthr : (opts.getOptionFloat "val-threshold").leZero = true := by
        simp [he, FloatVal.leZero]
      simp only [CheckOptions, hneg, hthr, ↓reduceIte]
      exact ⟨_, rfl⟩

/-- Claim C2, as stated, fails: the print limit is tested after its conversion to `int`.  With
the registered defaults and `val-print-limit = -4294967296`, which is negative, `CheckOptions`
raises nothing; with a `512 x 512` matrix, the default threshold and
`val-print-limit = 2147483648`, which is non-negative, it raises `InvalidArgValue`. -/
theorem CheckOptions_print_limit_wraps :
    ((addBenchmarkSpecOptions 10 1 false).setInt "val-print-limit" (-4294967296)).getOptionInt
      "val-print-limit" < 0 ∧
    CheckOptions ((addBenchmarkSpecOptions 10 1 false).setInt "val-print-limit" (-4294967296)) =
      .ok () ∧
    0 < ((((addBenchmarkSpecOptions 10 1 false).setInt "matrixRows" 512).setInt "matrixCols"
      512).setInt "val-print-limit" 2147483648).getOptionInt "matrixRows" ∧
    0 < ((((addBenchmarkSpecOptions 10 1 false).setInt "matrixRows" 512).setInt "matrixCols"
      512).setInt "val-print-limit" 2147483648).getOptionInt "matrixCols" ∧
    (((((addBenchmarkSpecOptions 10 1 false).setInt "matrixRows" 512).setInt "matrixCols"
      512).setInt "val-print-limit" 2147483648).getOptionFloat "val-threshold").gtZero = true ∧
    0 ≤ ((((addBenchmarkSpecOptions 10 1 false).setInt "matrixRows" 512).setInt "matrixCols"
      512).setInt "val-print-limit" 2147483648).getOptionInt "val-print-limit" ∧
    CheckOptions ((((addBenchmarkSpecOptions 10 1 false).setInt "matrixRows" 512).setInt
      "matrixCols" 512).setInt "val-print-limit" 2147483648) =
      .error (.InvalidArgValue "Number of validation errors to print must be non-negative") := by
  decide

/-- Claim C2, amended: the stencil-independent `CheckOptions` raises `InvalidArgValue` whenever
the validation threshold is `<= 0`, whatever the other options are, and whenever the print
limit is negative and fits a 32-bit `int` (`-2^31 <= val-print-limit < 0`); it raises nothing
when both matrix dimensions are positive, the threshold is `> 0` and
`0 <= val-print-limit < 2^31`; a print limit of exactly `0` is accepted and a threshold of
exactly `0` is rejected. -/
theorem CheckOptions_threshold_and_print_limit (opts : OptionParser) :
    (((opts.getOptionFloat "val-threshold").leZero = true ∨
        (-2 ^ 31 ≤ opts.getOptionInt "val-print-limit" ∧
          opts.getOptionInt "val-print-limit" < 0)) →
      ∃ msg, CheckOptions opts = .error (.InvalidArgValue msg)) ∧
    ((0 < opts.getOptionInt "matrixRows" ∧ 0 < opts.getOptionInt "matrixCols" ∧
        (opts.getOptionFloat "val-threshold").gtZero = true ∧
        0 ≤ opts.getOptionInt "val-print-limit" ∧
        opts.getOptionInt "val-print-limit" < 2 ^ 31) →
      CheckOptions opts = .ok ()) ∧
    ((0 < opts.getOptionInt "matrixRows" ∧ 0 < opts.getOptionInt "matrixCols" ∧
        (opts.getOptionFloat "val-threshold").gtZero = true ∧
        opts.getOptionInt "val-print-limit" = 0) →
      CheckOptions opts = .ok ()) ∧
    ((∃ e, opts.getOptionFloat "val-threshold" = .finite 0 e) →
      ∃ msg, CheckOptions opts = .error (.InvalidArgValue msg)) := by
  obtain ⟨h1, h2, h3, h4⟩ := CheckOptions_as_read opts
  refine ⟨?_, ?_, h3, h4⟩
  · rintro (h | ⟨hlo, hneg⟩)
    · exact h1 (Or.inl h)
    · refine h1 (Or.inr ?_)
      rw [toInt32_of_range _ hlo (by omega)]
      exact hneg
  · rintro ⟨hr, hc, ht, h0, hhi⟩
    refine h2 ⟨hr, hc, ht, ?_⟩
    rw [toInt32_of_range _ (by omega) hhi]
    exact h0

/-- Claim C2, amended, at concrete option sets: a print limit of `-1` is rejected; the
defaults with a `512 x 512` matrix and print limit `15` are accepted, and so they are with
print limit `0`; a threshold of `0.0` is rejected. -/
theorem CheckOptions_threshold_and_print_limit_witness :
    (∃ msg, CheckOptions ((addBenchmarkSpecOptions 10 1 false).setInt "val-print-limit" (-1)) =
      .error (.InvalidArgValue msg)) ∧
    CheckOptions (((addBenchmarkSpecOptions 10 1 false).setInt "matrixRows" 512).setInt
      "matrixCols" 512) = .ok () ∧
    CheckOptions ((((addBenchmarkSpecOptions 10 1 false).setInt "matrixRows" 512).setInt
      "matrixCols" 512).setInt "val-print-limit" 0) = .ok () ∧
    (∃ msg, CheckOptions ((addBenchmarkSpecOptions 10 1 false).setFloat "val-threshold"
      (.finite 0 0)) = .error (.InvalidArgValue msg)) :=
  ⟨(CheckOptions_threshold_and_print_limit _).1 (Or.inr ⟨by decide, by decide⟩),
   (CheckOptions_threshold_and_print_limit _).2.1
     ⟨by decide, by decide, by decide, by decide, by decide⟩,
   (CheckOptions_threshold_and_print_limit _).2.2.1 ⟨by decide, by decide, by decide, by decide⟩,
   (CheckOptions_threshold_and_print_limit _).2.2.2 ⟨0, by decide⟩⟩

/-! ## Properties of `DoTest` -/

/-- Claim C3 fails on the code: with the registered defaults (one pass, size class 1) `DoTest`
builds the device stencil and returns normally, and with a validater that throws it rethrows
the error; on both exits the two factories and the host stencil have been deleted but the
device stencil has not. -/
theorem DoTest_leaks_device_stencil :
    (DoTest Env.plain .single "SP_Sten2D" World.init (addBenchmarkSpecOptions 1 1 false)).2 = none ∧
    (DoTest Env.plain .single "SP_Sten2D" World.init (addBenchmarkSpecOptions 1 1 false)).1.log =
      [.create .HostStencilFactory, .create .CUDAStencilFactory, .Initialize .expected,
       .create .hostStencil, .apply .hostStencil .expected 1000, .create .cudaStencil,
       .Initialize (.data 0), .apply .cudaStencil (.data 0) 1000,
       .AddResult ⟨"SP_Sten2D", "1000:4x4:8x256", "GFLOPS", .gflops 176000 (.finite 1 0)⟩,
       .create (.validater 0),
       .ValidateResult 0 ⟨6, 6, .stencilled .hostStencil 1000 (.initialized 71594 1 (.finite 0 0))⟩
         ⟨6, 6, .stencilled .cudaStencil 1000 (.initialized 71594 1 (.finite 0 0))⟩
         (.finite 10737418 (-30)) 15,
       .delete .hostStencil, .delete .HostStencilFactory, .delete .CUDAStencilFactory] ∧
    (DoTest Env.failingValidater .single "SP_Sten2D" World.init
      (addBenchmarkSpecOptions 1 1 false)).2 = some (.other "validater") ∧
    Event.create .cudaStencil ∈ (DoTest Env.failingValidater .single "SP_Sten2D" World.init
      (addBenchmarkSpecOptions 1 1 false)).1.log ∧
    Event.delete .cudaStencil ∉ (DoTest Env.failingValidater .single "SP_Sten2D" World.init
      (addBenchmarkSpecOptions 1 1 false)).1.log := by
  decide

/-- Whatever the collaborators and the options are, the calls `DoTest` adds to the log contain
no deletion of the device stencil, and they end with the deletion of both factories. -/
theorem DoTest_never_deletes_device_stencil (env : Env) (T : Precision) (timerDesc : String)
    (w : World) (opts : OptionParser) :
    ∃ added : List Event,
      (DoTest env T timerDesc w opts).1.log =
        w.log ++ added ++ [.delete .HostStencilFactory, .delete .CUDAStencilFactory] ∧
      Event.delete .cudaStencil ∉ added := by
  have hworld : (DoTest env T timerDesc w opts).1 =
      (cleanUp (lastFrame (tryBlock env T timerDesc opts ⟨w, none, none, none, none⟩))).world := by
    unfold DoTest
    cases tryBlock env T timerDesc opts ⟨w, none, none, none, none⟩ with
    | error ef => rfl
    | ok f => rfl
  cases hd : arrayDims env (w.statics T) opts with
  | error e =>
    obtain ⟨e', st, ht⟩ := tryBlock_no_size env T timerDesc w opts e hd
    refine ⟨[.create .HostStencilFactory, .create .CUDAStencilFactory], ?_, by simp⟩
    rw [hworld, ht]
    simp [lastFrame, cleanUp, delete, Frame.emit]
  | ok dims =>
    obtain ⟨k, added, sp, st, _, _, hev, hsp, hl⟩ :=
      tryBlock_spec env T timerDesc w opts dims hd
    have hno : Event.delete .cudaStencil ∉ added := by
      intro hmem
      rcases hev _ hmem with h | h | h | h | h | h | h
      · rcases h with ⟨_, h⟩ | h | h | h <;> simp at h
      · obtain ⟨_, _, h, _⟩ := h
        simp at h
      · simp at h
      · obtain ⟨_, _, _, h⟩ := h
        rcases h with ⟨_, h⟩ | ⟨_, h⟩ | ⟨_, h⟩ | ⟨_, h⟩ | ⟨_, _, h, _⟩ <;> simp at h
      · simp at h
      · simp at h
      · simp at h
    rcases hsp with hsp | hsp
    · refine ⟨[.create .HostStencilFactory, .create .CUDAStencilFactory] ++ added, ?_, ?_⟩
      · rw [hworld, hl, hsp]
        simp [cleanUp, delete, Frame.emit, List.append_assoc]
      · simpa using hno
    · refine ⟨[.create .HostStencilFactory, .create .CUDAStencilFactory] ++ added ++
        [.delete .hostStencil], ?_, ?_⟩
      · rw [hworld, hl, hsp]
        simp [cleanUp, delete, Frame.emit, List.append_assoc]
      · simpa using hno

/-- Claim C5: if the stencil-independent `CheckOptions` or the `CheckOptions` of either factory
rejects the options, `DoTest` throws the error of the first check that rejects; it has then
only created and deleted the two factories - no stencil was built, no grid initialised, no
stencil run, nothing validated - and the result database and the statics are unchanged. -/
theorem DoTest_rejected_options (env : Env) (T : Precision) (timerDesc : String) (w : World)
    (opts : OptionParser)
    (h : (∃ e, CheckOptions opts = .error e) ∨ (∃ e, env.hostCheckOptions opts = .error e) ∨
      (∃ e, env.cudaCheckOptions opts = .error e)) :
    ∃ e, (DoTest env T timerDesc w opts).2 = some e ∧
      (CheckOptions opts = .error e ∨
        (CheckOptions opts = .ok () ∧ env.hostCheckOptions opts = .error e) ∨
        (CheckOptions opts = .ok () ∧ env.hostCheckOptions opts = .ok () ∧
          env.cudaCheckOptions opts = .error e)) ∧
      (DoTest env T timerDesc w opts).1 =
        ⟨w.resultDB, w.log ++ [.create .HostStencilFactory, .create .CUDAStencilFactory,
          .delete .HostStencilFactory, .delete .CUDAStencilFactory], w.statics⟩ := by
  cases hc1 : CheckOptions opts with
  | error e1 =>
    exact ⟨e1, by simp [DoTest, tryBlock, hc1], Or.inl rfl,
      by simp [DoTest, tryBlock, hc1, cleanUp, delete, Frame.emit]⟩
  | ok u1 =>
  cases hc2 : env.hostCheckOptions opts with
  | error e2 =>
    exact ⟨e2, by simp [DoTest, tryBlock, hc1, hc2], Or.inr (Or.inl ⟨rfl, rfl⟩),
      by simp [DoTest, tryBlock, hc1, hc2, cleanUp, delete, Frame.emit]⟩
  | ok u2 =>
  cases hc3 : env.cudaCheckOptions opts with
  | error e3 =>
    exact ⟨e3, by simp [DoTest, tryBlock, hc1, hc2, hc3], Or.inr (Or.inr ⟨rfl, rfl, rfl⟩),
      by simp [DoTest, tryBlock, hc1, hc2, hc3, cleanUp, delete, Frame.emit]⟩
  | ok u3 =>
    rw [hc1, hc2, hc3] at h
    simp at h

/-- Claim C5 at a concrete option set: the defaults with `val-threshold` set to `0.0` are
rejected by `CheckOptions`, and `DoTest` throws that error having only created and deleted the
factories. -/
theorem DoTest_rejected_options_witness :
    ∃ e, (DoTest Env.plain .single "SP_Sten2D" World.init
        ((addBenchmarkSpecOptions 1 1 false).setFloat "val-threshold" (.finite 0 0))).2 = some e ∧
      (CheckOptions ((addBenchmarkSpecOptions 1 1 false).setFloat "val-threshold" (.finite 0 0)) =
          .error e ∨
        (CheckOptions ((addBenchmarkSpecOptions 1 1 false).setFloat "val-threshold" (.finite 0 0))
            = .ok () ∧
          Env.plain.hostCheckOptions
            ((addBenchmarkSpecOptions 1 1 false).setFloat "val-threshold" (.finite 0 0)) =
            .error e) ∨
        (CheckOptions ((addBenchmarkSpecOptions 1 1 false).setFloat "val-threshold" (.finite 0 0))
            = .ok () ∧
          Env.plain.hostCheckOptions
            ((addBenchmarkSpecOptions 1 1 false).setFloat "val-threshold" (.finite 0 0)) =
            .ok () ∧
          Env.plain.cudaCheckOptions
            ((addBenchmarkSpecOptions 1 1 false).setFloat "val-threshold" (.finite 0 0)) =
            .error e)) ∧
      (DoTest Env.plain .single "SP_Sten2D" World.init
        ((addBenchmarkSpecOptions 1 1 false).setFloat "val-threshold" (.finite 0 0))).1 =
        ⟨World.init.resultDB, World.init.log ++ [.create .HostStencilFactory,
          .create .CUDAStencilFactory, .delete .HostStencilFactory,
          .delete .CUDAStencilFactory], World.init.statics⟩ :=
  DoTest_rejected_options Env.plain .single "SP_Sten2D" World.init
    ((addBenchmarkSpecOptions 1 1 false).setFloat "val-threshold" (.finite 0 0))
    (Or.inl ⟨.InvalidArgValue "Validation threshold must be positive", by decide⟩)

/-- Claim C6: let the problem size be `rows x cols` with `rows >= 1` and `cols >= 1`.  The
number of non-halo cells of the `(rows+2) x (cols+2)` grid is `rows * cols`, and every result
`DoTest` records - one for each pass that got as far as recording - carries the same operation
count, `interiorCells * 11 * nIters` modulo `2^64`, `nIters` being the `unsigned int` read from
`num-iters`. -/
theorem DoTest_flop_count (env : Env) (T : Precision) (timerDesc : String) (w : World)
    (opts : OptionParser) (rows cols : Int) (hrows : 1 ≤ rows) (hcols : 1 ≤ cols)
    (hd : arrayDims env (w.statics T) opts = .ok (rows, cols)) :
    (interiorCells (rows + 2).toNat (cols + 2).toNat haloWidth : Int) = rows * cols ∧
    ∃ k, k ≤ toUInt32 (opts.getOptionInt "passes") ∧
      ((DoTest env T timerDesc w opts).2 = none → k = toUInt32 (opts.getOptionInt "passes")) ∧
      ∃ atts, (DoTest env T timerDesc w opts).1.resultDB =
        w.resultDB ++ (List.range' 0 k).map (fun pass =>
          ⟨timerDesc, atts, "GFLOPS",
            .gflops ((interiorCells (rows + 2).toNat (cols + 2).toNat haloWidth * 11 *
                toUInt32 (opts.getOptionInt "num-iters")) % 2 ^ 64)
              (env.elapsedTime pass)⟩) := by
  have hcells : (interiorCells (rows + 2).toNat (cols + 2).toNat haloWidth : Int) =
      rows * cols := by
    rw [interiorCells_eq]
    have h1 : (rows + 2).toNat - haloWidth - haloWidth = rows.toNat := by
      unfold haloWidth; omega
    have h2 : (cols + 2).toNat - haloWidth - haloWidth = cols.toNat := by
      unfold haloWidth; omega
    rw [h1, h2]
    push_cast
    rw [Int.toNat_of_nonneg (by omega), Int.toNat_of_nonneg (by omega)]
  refine ⟨hcells, ?_⟩
  obtain ⟨k, added, st, hk, hok, _, hw⟩ := DoTest_spec env T timerDesc w opts (rows, cols) hd
  refine ⟨k, hk, hok, (config (w.statics T) opts (rows, cols)).experimentDescriptionStr, ?_⟩
  rw [hw]
  have hfl : nflops (config (w.statics T) opts (rows, cols)) =
      (interiorCells (rows + 2).toNat (cols + 2).toNat haloWidth * 11 *
        toUInt32 (opts.getOptionInt "num-iters")) % 2 ^ 64 := by
    have hnat : interiorCells (rows + 2).toNat (cols + 2).toNat haloWidth =
        (rows * cols).toNat := by
      have := congrArg Int.toNat hcells
      simpa using this
    have hpos : 0 ≤ rows * cols := by positivity
    simp only [nflops, config, toUInt64, hnat]
    have hsimp : (rows + 2 * (haloWidth : Int) - 2) * (cols + 2 * (haloWidth : Int) - 2) =
        rows * cols := by
      unfold haloWidth; ring
    rw [hsimp]
    have hm : ((rows * cols) % 2 ^ 64).toNat = (rows * cols).toNat % 2 ^ 64 := by
      have h0 : (0 : Int) ≤ rows * cols := hpos
      zify
      rw [Int.toNat_of_nonneg (Int.emod_nonneg _ (by norm_num)), Int.toNat_of_nonneg h0]
    rw [hm]
    simp [Nat.mul_mod, Nat.mod_mod]
  have hfun : passResult env timerDesc (config (w.statics T) opts (rows, cols)) =
      fun pass => ⟨timerDesc, (config (w.statics T) opts (rows, cols)).experimentDescriptionStr,
        "GFLOPS", .gflops ((interiorCells (rows + 2).toNat (cols + 2).toNat haloWidth * 11 *
          toUInt32 (opts.getOptionInt "num-iters")) % 2 ^ 64) (env.elapsedTime pass)⟩ := by
    funext pass
    simp only [passResult, hfl]
  rw [hfun]

/-- Claim C6 at a concrete input: with the registered defaults and size class 1 the problem is
`4 x 4`, the `6 x 6` grid has `16` interior cells and the results carry that operation count
times `11` times the `1000` iterations. -/
theorem DoTest_flop_count_witness :
    (1 : Int) ≤ 4 ∧
    arrayDims Env.plain (World.init.statics .single) (addBenchmarkSpecOptions 2 1 false) =
      .ok (4, 4) ∧
    (interiorCells ((4 : Int) + 2).toNat ((4 : Int) + 2).toNat haloWidth : Int) = 4 * 4 ∧
    ∃ k, k ≤ toUInt32 ((addBenchmarkSpecOptions 2 1 false).getOptionInt "passes") ∧
      ((DoTest Env.plain .single "SP_Sten2D" World.init (addBenchmarkSpecOptions 2 1 false)).2 =
          none →
        k = toUInt32 ((addBenchmarkSpecOptions 2 1 false).getOptionInt "passes")) ∧
      ∃ atts, (DoTest Env.plain .single "SP_Sten2D" World.init
          (addBenchmarkSpecOptions 2 1 false)).1.resultDB =
        World.init.resultDB ++ (List.range' 0 k).map (fun pass =>
          ⟨"SP_Sten2D", atts, "GFLOPS",
            .gflops ((interiorCells ((4 : Int) + 2).toNat ((4 : Int) + 2).toNat haloWidth * 11 *
                toUInt32 ((addBenchmarkSpecOptions 2 1 false).getOptionInt "num-iters")) % 2 ^ 64)
              (Env.plain.elapsedTime pass)⟩) :=
  ⟨by decide, by decide,
    DoTest_flop_count Env.plain .single "SP_Sten2D" World.init (addBenchmarkSpecOptions 2 1 false)
      4 4 (by decide) (by decide) (by decide)⟩

/-- The first execution of an instantiation (its static `matrixArr` not yet initialised): the
problem size of `DoTest` is the explicit `(matrixRows, matrixCols)` when both are non-zero and
`GetStandardProblemSize` of the size class when `matrixRows` or `matrixCols` is `0`.  With the
problem size `dims`, whatever the statics, the observed grid handed to the validater has `dims`
plus `2*haloWidth` in each direction, and every result carries the experiment description and
the operation count computed from `dims`. -/
theorem DoTest_first_execution_dimensions (env : Env) (T : Precision) (timerDesc : String)
    (w : World) (opts : OptionParser) :
    ((w.statics T).matrixArr = none →
      ((opts.getOptionInt "matrixRows" ≠ 0 ∧ opts.getOptionInt "matrixCols" ≠ 0) →
        arrayDims env (w.statics T) opts =
          .ok (opts.getOptionInt "matrixRows", opts.getOptionInt "matrixCols")) ∧
      ((opts.getOptionInt "matrixRows" = 0 ∨ opts.getOptionInt "matrixCols" = 0) →
        arrayDims env (w.statics T) opts =
          env.GetStandardProblemSize (toInt32 (opts.getOptionInt "size")))) ∧
    ∀ dims, arrayDims env (w.statics T) opts = .ok dims →
      (config (w.statics T) opts dims).arrayDims = dims ∧
      ∃ (addedLog : List Event) (addedResults : List Result),
        (DoTest env T timerDesc w opts).1.log = w.log ++ addedLog ∧
        (DoTest env T timerDesc w opts).1.resultDB = w.resultDB ++ addedResults ∧
        (∀ pass expected data thr lim,
          Event.ValidateResult pass expected data thr lim ∈ addedLog →
            data.nRows = dims.1 + 2 * haloWidth ∧
            data.nColumns = dims.2 + 2 * haloWidth) ∧
        (∀ r ∈ addedResults,
          r.atts = (config (w.statics T) opts dims).experimentDescriptionStr ∧
          ∃ t, r.value = .gflops (nflops (config (w.statics T) opts dims)) t) := by
  refine ⟨?_, ?_⟩
  · intro hfirst
    have hm : matrixArr (w.statics T) opts =
        (opts.getOptionInt "matrixRows", opts.getOptionInt "matrixCols") := by
      simp [matrixArr, hfirst]
    refine ⟨?_, ?_⟩
    · rintro ⟨hr, hc⟩
      simp [arrayDims, hm, hr, hc]
    · intro h
      simp [arrayDims, hm, h]
  · intro dims hd
    refine ⟨rfl, ?_⟩
    obtain ⟨k, added, st, _, _, hev, hw⟩ := DoTest_spec env T timerDesc w opts dims hd
    refine ⟨[.create .HostStencilFactory, .create .CUDAStencilFactory] ++ added,
      (List.range' 0 k).map (passResult env timerDesc (config (w.statics T) opts dims)),
      by rw [hw]; simp [List.append_assoc], by rw [hw], ?_, ?_⟩
    · intro pass expected data thr lim hmem
      rcases List.mem_append.1 hmem with h | h
      · simp at h
      · have := DoTestEvent_validate env opts timerDesc _ pass expected data thr lim (hev _ h)
        exact ⟨this.2.2.1, this.2.2.2.1⟩
    · intro r hr
      obtain ⟨p, _, hp⟩ := List.mem_map.1 hr
      subst hp
      exact ⟨rfl, _, rfl⟩

/-- Later executions of the same instantiation: once the static `matrixArr` holds a size with
both entries non-zero, that size is the problem size whatever the options say. -/
theorem arrayDims_of_initialised_static (env : Env) (st : Statics) (opts : OptionParser)
    (m : Int × Int) (hst : st.matrixArr = some m) (h1 : m.1 ≠ 0) (h2 : m.2 ≠ 0) :
    arrayDims env st opts = .ok m := by
  simp [arrayDims, matrixArr, hst, h1, h2]

/-- Claim C8 fails on the code: after a first call of `DoTest<float>` with the explicit size
`512 x 300`, a second call of the same instantiation with `matrixRows = 100` and
`matrixCols = 200`, both non-zero, does not use `100 x 200`: the static `matrixArr` of line 71
still holds `512 x 300`, so the problem size, the experiment description of the recorded result
and the grids handed to the validater (`514 x 302`) are those of the first call. -/
theorem DoTest_second_call_keeps_first_size :
    (((addBenchmarkSpecOptions 1 1 false).setInt "matrixRows" 100).setInt "matrixCols"
      200).getOptionInt "matrixRows" = 100 ∧
    (((addBenchmarkSpecOptions 1 1 false).setInt "matrixRows" 100).setInt "matrixCols"
      200).getOptionInt "matrixCols" = 200 ∧
    arrayDims Env.plain
        ((DoTest Env.plain .single "SP_Sten2D" World.init
          (((addBenchmarkSpecOptions 1 1 false).setInt "matrixRows" 512).setInt "matrixCols"
            300)).1.statics .single)
        (((addBenchmarkSpecOptions 1 1 false).setInt "matrixRows" 100).setInt "matrixCols" 200) =
      .ok (512, 300) ∧
    (DoTest Env.plain .single "SP_Sten2D"
        (DoTest Env.plain .single "SP_Sten2D" World.init
          (((addBenchmarkSpecOptions 1 1 false).setInt "matrixRows" 512).setInt "matrixCols"
            300)).1
        (((addBenchmarkSpecOptions 1 1 false).setInt "matrixRows" 100).setInt "matrixCols"
          200)).2 = none ∧
    (DoTest Env.plain .single "SP_Sten2D"
        (DoTest Env.plain .single "SP_Sten2D" World.init
          (((addBenchmarkSpecOptions 1 1 false).setInt "matrixRows" 512).setInt "matrixCols"
            300)).1
        (((addBenchmarkSpecOptions 1 1 false).setInt "matrixRows" 100).setInt "matrixCols"
          200)).1.resultDB =
      [⟨"SP_Sten2D", "1000:512x300:8x256", "GFLOPS", .gflops 1689600000 (.finite 1 0)⟩,
       ⟨"SP_Sten2D", "1000:512x300:8x256", "GFLOPS", .gflops 1689600000 (.finite 1 0)⟩] ∧
    Event.ValidateResult 0
        ⟨514, 302, .stencilled .hostStencil 1000 (.initialized 71594 1 (.finite 0 0))⟩
        ⟨514, 302, .stencilled .cudaStencil 1000 (.initialized 71594 1 (.finite 0 0))⟩
        (.finite 10737418 (-30)) 15 ∈
      ((DoTest Env.plain .single "SP_Sten2D"
        (DoTest Env.plain .single "SP_Sten2D" World.init
          (((addBenchmarkSpecOptions 1 1 false).setInt "matrixRows" 512).setInt "matrixCols"
            300)).1
        (((addBenchmarkSpecOptions 1 1 false).setInt "matrixRows" 100).setInt "matrixCols"
          200)).1.log.drop 14) := by
  decide

/-! ## Properties of `RunBenchmark` -/

/-- Lines 241-257 in terms of `n`, the pass count as `RunBenchmark` reads it (`int nPasses`).
On a device that has neither `major == 1 and minor >= 3` nor `major >= 2`, and for `n`
non-negative, the double-precision step appends exactly `n` sentinel results and nothing else
to the result database, and a double-precision `DoTest` that returns normally records the same
number, `n`, of `DP_Sten2D` results.  On every other device the step is the double-precision
`DoTest`, none of whose results is the sentinel. -/
theorem doublePrecision_as_read (env : Precision → Env) (deviceProps : cudaDeviceProp)
    (w : World) (opts : OptionParser) :
    (∀ w1, DoTest (env .single) .single "SP_Sten2D"
        { w with log := w.log ++ [.SetAllocator .single] } opts = (w1, none) →
      RunBenchmark env deviceProps w opts = doublePrecision (env .double) deviceProps w1 opts) ∧
    (∀ w1, (¬ ((deviceProps.major = 1 ∧ deviceProps.minor ≥ 3) ∨ deviceProps.major ≥ 2) ∧
        0 ≤ toInt32 (opts.getOptionInt "passes")) →
      doublePrecision (env .double) deviceProps w1 opts =
        (⟨w1.resultDB ++ List.replicate (toInt32 (opts.getOptionInt "passes")).toNat sentinel,
          w1.log ++ List.replicate (toInt32 (opts.getOptionInt "passes")).toNat
            (.AddResult sentinel), w1.statics⟩, none) ∧
      ∀ w', (DoTest (env .double) .double "DP_Sten2D" w' opts).2 = none →
        ∃ added, (DoTest (env .double) .double "DP_Sten2D" w' opts).1.resultDB =
            w'.resultDB ++ added ∧
          added.length = (toInt32 (opts.getOptionInt "passes")).toNat ∧
          ∀ r ∈ added, r.test = "DP_Sten2D" ∧ r.unit = "GFLOPS") ∧
    (∀ w1, ((deviceProps.major = 1 ∧ deviceProps.minor ≥ 3) ∨ deviceProps.major ≥ 2) →
      doublePrecision (env .double) deviceProps w1 opts =
        DoTest (env .double) .double "DP_Sten2D"
          { w1 with log := w1.log ++ [.SetAllocator .double] } opts ∧
      ∃ added, (doublePrecision (env .double) deviceProps w1 opts).1.resultDB =
          w1.resultDB ++ added ∧ sentinel ∉ added) := by
  refine ⟨?_, ?_, ?_⟩
  · intro w1 hsp
    simp only [RunBenchmark, hsp]
  · rintro w1 ⟨hdev, hn⟩
    constructor
    · simp only [doublePrecision, hdev, ↓reduceIte, sentinelLoop_eq]
    · intro w' hok
      obtain ⟨added, hdb, _, hlen, hprop⟩ :=
        DoTest_results (env .double) .double "DP_Sten2D" w' opts
      refine ⟨added, hdb, ?_, fun r hr => ⟨(hprop r hr).1, (hprop r hr).2.1⟩⟩
      rw [hlen hok]
      have := toInt32_nonneg_eq _ hn
      omega
  · intro w1 hdev
    have hrun : doublePrecision (env .double) deviceProps w1 opts =
        DoTest (env .double) .double "DP_Sten2D"
          { w1 with log := w1.log ++ [.SetAllocator .double] } opts := by
      simp only [doublePrecision, hdev, ↓reduceIte]
    refine ⟨hrun, ?_⟩
    obtain ⟨added, hdb, _, _, hprop⟩ := DoTest_results (env .double) .double "DP_Sten2D"
      { w1 with log := w1.log ++ [.SetAllocator .double] } opts
    refine ⟨added, by rw [hrun, hdb], ?_⟩
    intro hmem
    obtain ⟨_, _, n, t, hv⟩ := hprop _ hmem
    simp [sentinel] at hv

/-- Claim C7, as stated, fails in two ways.  With `passes = 2147483648`, a non-negative pass
count, on a device of compute capability 1.2, the double-precision step reads the count into
an `int`, gets a negative number and records no sentinel at all, while `DoTest` would run
`2147483648` passes.  With two passes and `val-threshold = 0.0` on the same device, the
single-precision `DoTest` throws, `RunBenchmark` lets the error through and no sentinel is
recorded. -/
theorem RunBenchmark_sentinels_missing :
    0 ≤ (addBenchmarkSpecOptions 2147483648 1 false).getOptionInt "passes" ∧
    (doublePrecision Env.plain ⟨1, 2⟩ World.init
      (addBenchmarkSpecOptions 2147483648 1 false)).1.resultDB = [] ∧
    (doublePrecision Env.plain ⟨1, 2⟩ World.init
      (addBenchmarkSpecOptions 2147483648 1 false)).2 = none ∧
    (config ⟨none, none⟩ (addBenchmarkSpecOptions 2147483648 1 false) (4, 4)).nPasses =
      2147483648 ∧
    (RunBenchmark (fun _ => Env.plain) ⟨1, 2⟩ World.init
      ((addBenchmarkSpecOptions 2 1 false).setFloat "val-threshold" (.finite 0 0))).2 =
      some (.InvalidArgValue "Validation threshold must be positive") ∧
    (RunBenchmark (fun _ => Env.plain) ⟨1, 2⟩ World.init
      ((addBenchmarkSpecOptions 2 1 false).setFloat "val-threshold" (.finite 0 0))).1.resultDB =
      [] := by
  decide

/-- Claim C7, amended: once the single-precision `DoTest` has returned normally, `RunBenchmark`
goes on with lines 241-257.  There, for every pass count with `0 <= passes < 2^31` and every
device that has neither `major == 1 and minor >= 3` nor `major >= 2`, the double-precision
experiment is skipped, the run returns normally and exactly `passes` sentinel results
(`DP_Sten2D`, `N/A`, `GFLOPS`, `FLT_MAX`) and nothing else are appended to the result database,
which is the number of `DP_Sten2D` results a double-precision `DoTest` that returns normally
records.  On every other device the double-precision `DoTest` is run instead and none of the
results it records is the sentinel. -/
theorem RunBenchmark_double_precision (env : Precision → Env) (deviceProps : cudaDeviceProp)
    (w : World) (opts : OptionParser) :
    (∀ w1, DoTest (env .single) .single "SP_Sten2D"
        { w with log := w.log ++ [.SetAllocator .single] } opts = (w1, none) →
      RunBenchmark env deviceProps w opts = doublePrecision (env .double) deviceProps w1 opts) ∧
    (∀ w1, (¬ ((deviceProps.major = 1 ∧ deviceProps.minor ≥ 3) ∨ deviceProps.major ≥ 2) ∧
        0 ≤ opts.getOptionInt "passes" ∧ opts.getOptionInt "passes" < 2 ^ 31) →
      doublePrecision (env .double) deviceProps w1 opts =
        (⟨w1.resultDB ++ List.replicate (opts.getOptionInt "passes").toNat sentinel,
          w1.log ++ List.replicate (opts.getOptionInt "passes").toNat (.AddResult sentinel),
          w1.statics⟩, none) ∧
      ∀ w', (DoTest (env .double) .double "DP_Sten2D" w' opts).2 = none →
        ∃ added, (DoTest (env .double) .double "DP_Sten2D" w' opts).1.resultDB =
            w'.resultDB ++ added ∧
          added.length = (opts.getOptionInt "passes").toNat ∧
          ∀ r ∈ added, r.test = "DP_Sten2D" ∧ r.unit = "GFLOPS") ∧
    (∀ w1, ((deviceProps.major = 1 ∧ deviceProps.minor ≥ 3) ∨ deviceProps.major ≥ 2) →
      doublePrecision (env .double) deviceProps w1 opts =
        DoTest (env .double) .double "DP_Sten2D"
          { w1 with log := w1.log ++ [.SetAllocator .double] } opts ∧
      ∃ added, (doublePrecision (env .double) deviceProps w1 opts).1.resultDB =
          w1.resultDB ++ added ∧ sentinel ∉ added) := by
  obtain ⟨h1, h2, h3⟩ := doublePrecision_as_read env deviceProps w opts
  refine ⟨h1, ?_, h3⟩
  rintro w1 ⟨hdev, h0, hhi⟩
  have hread : toInt32 (opts.getOptionInt "passes") = opts.getOptionInt "passes" :=
    toInt32_of_range _ (by omega) hhi
  have := h2 w1 ⟨hdev, by rw [hread]; exact h0⟩
  rw [hread] at this
  exact this

/-- Claim C7, amended, at concrete inputs, with two passes: on a device of compute capability
1.2 the run returns normally and the two sentinels follow the single-precision results; on a device of
compute capability 2.0 the double-precision `DoTest` is run. -/
theorem RunBenchmark_double_precision_witness :
    RunBenchmark (fun _ => Env.plain) ⟨1, 2⟩ World.init (addBenchmarkSpecOptions 2 1 false) =
      (⟨(DoTest Env.plain .single "SP_Sten2D"
            { World.init with log := World.init.log ++ [.SetAllocator .single] }
            (addBenchmarkSpecOptions 2 1 false)).1.resultDB ++ [sentinel, sentinel],
        (DoTest Env.plain .single "SP_Sten2D"
            { World.init with log := World.init.log ++ [.SetAllocator .single] }
            (addBenchmarkSpecOptions 2 1 false)).1.log ++
          [.AddResult sentinel, .AddResult sentinel],
        (DoTest Env.plain .single "SP_Sten2D"
            { World.init with log := World.init.log ++ [.SetAllocator .single] }
            (addBenchmarkSpecOptions 2 1 false)).1.statics⟩, none) ∧
    doublePrecision Env.plain ⟨2, 0⟩ World.init (addBenchmarkSpecOptions 2 1 false) =
      DoTest Env.plain .double "DP_Sten2D"
        { World.init with log := World.init.log ++ [.SetAllocator .double] }
        (addBenchmarkSpecOptions 2 1 false) :=
  ⟨((RunBenchmark_double_precision (fun _ => Env.plain) ⟨1, 2⟩ World.init
        (addBenchmarkSpecOptions 2 1 false)).1 _ (Prod.ext rfl (by decide))).trans
      (((RunBenchmark_double_precision (fun _ => Env.plain) ⟨1, 2⟩ World.init
        (addBenchmarkSpecOptions 2 1 false)).2.1 _ ⟨by decide, by decide, by decide⟩).1),
   ((RunBenchmark_double_precision (fun _ => Env.plain) ⟨2, 0⟩ World.init
      (addBenchmarkSpecOptions 2 1 false)).2.2 World.init (Or.inr (by decide))).1⟩

end Stencil2D

/-! # Properties of the average-pooling layer -/

namespace Darknet

/-! ## Loops whose iterations write disjoint regions -/

/-- A loop whose iteration `i` changes the state only inside the region `R i`, where it maps
the old value `x` at index `j` to `G j x`, the regions being pairwise disjoint: the loop maps
`x` to `G j x` inside the union of the regions and changes nothing outside. -/
theorem foldl_regions (n : Nat) (step : Nat → (Int → ℚ) → (Int → ℚ)) (R : Nat → Int → Prop)
    (G : Int → ℚ → ℚ)
    (hin : ∀ i < n, ∀ f j, R i j → step i f j = G j (f j))
    (hout : ∀ i < n, ∀ f j, ¬ R i j → step i f j = f j)
    (hdisj : ∀ i < n, ∀ i' < n, i ≠ i' → ∀ j, R i j → ¬ R i' j) (f : Int → ℚ) (j : Int) :
    ((∃ i < n, R i j) → (List.range n).foldl (fun f i => step i f) f j = G j (f j)) ∧
    ((∀ i < n, ¬ R i j) → (List.range n).foldl (fun f i => step i f) f j = f j) := by
  induction n with
  | zero =>
    constructor
    · rintro ⟨i, hi, _⟩
      omega
    · intro _
      simp
  | succ n ih =>
    have ih' := ih (fun i hi => hin i (by omega)) (fun i hi => hout i (by omega))
      (fun i hi i' hi' => hdisj i (by omega) i' (by omega))
    rw [List.range_succ, List.foldl_append]
    simp only [List.foldl_cons, List.foldl_nil]
    constructor
    · rintro ⟨i, hi, hR⟩
      by_cases hlast : i = n
      · subst hlast
        rw [hin i (by omega) _ j hR]
        rw [ih'.2 (fun i' hi' => hdisj i (by omega) i' (by omega) (by omega) j hR)]
      · have hi' : i < n := by omega
        rw [hout n (by omega) _ j (hdisj i (by omega) n (by omega) hlast j hR)]
        exact ih'.1 ⟨i, hi', hR⟩
    · intro hnone
      rw [hout n (by omega) _ j (hnone n (by omega))]
      exact ih'.2 (fun i hi => hnone i (by omega))

/-- Index `i + n * o` with `0 <= i < n` lies in window `o`. -/
theorem window_div (n o i : Int) (h0 : 0 ≤ i) (h1 : i < n) : (i + n * o) / n = o := by
  have hn : n ≠ 0 := by omega
  rw [Int.add_mul_ediv_left _ _ hn, Int.ediv_eq_zero_of_lt h0 h1, zero_add]

/-! ## The forward pass -/

/-- The accumulation loop of lines 95-98 adds the terms `g 0`, ..., `g (N-1)` to one cell. -/
theorem foldl_accumulate (N : Nat) (g : Nat → ℚ) (oi : Int) (o0 : Int → ℚ) :
    (List.range N).foldl (fun o i => Function.update o oi (o oi + g i)) o0 =
      Function.update o0 oi (o0 oi + ∑ i ∈ Finset.range N, g i) := by
  induction N with
  | zero => simp
  | succ N ih =>
    rw [List.range_succ, List.foldl_append, ih]
    simp only [List.foldl_cons, List.foldl_nil, Function.update_same, Function.update_idem,
      Finset.sum_range_succ, add_assoc]

theorem forwardCell_eq (l : avgpool_layer) (net : network) (b k : Int) (output : Int → ℚ) :
    forwardCell l net b k output =
      Function.update output (k + b * l.c) (windowMean l net (k + b * l.c)) := by
  unfold forwardCell forLoop
  simp only []
  rw [foldl_accumulate (l.h * l.w).toNat
    (fun i => net.input ((i : Int) + l.h * l.w * (k + b * l.c)))]
  simp only [Function.update_same, Function.update_idem, zero_add, windowMean]

theorem forward_output_eq (l : avgpool_layer) (net : network) :
    (forward_avgpool_layer l net).1.output =
      (List.range l.batch.toNat).foldl (fun f (b : Nat) =>
        (List.range l.c.toNat).foldl (fun f (k : Nat) =>
          Function.update f ((k : Int) + (b : Int) * l.c)
            (windowMean l net ((k : Int) + (b : Int) * l.c))) f) l.output := by
  have h : ∀ (b k : Int) (output : Int → ℚ),
      Function.update
        ((List.range (l.h * l.w).toNat).foldl (fun output (i : Nat) =>
          Function.update output (k + b * l.c)
            (output (k + b * l.c) + net.input ((i : Int) + l.h * l.w * (k + b * l.c))))
          (Function.update output (k + b * l.c) 0))
        (k + b * l.c)
        ((List.range (l.h * l.w).toNat).foldl (fun output (i : Nat) =>
          Function.update output (k + b * l.c)
            (output (k + b * l.c) + net.input ((i : Int) + l.h * l.w * (k + b * l.c))))
          (Function.update output (k + b * l.c) 0) (k + b * l.c) /
          ((l.h * l.w : Int) : ℚ)) =
      Function.update output (k + b * l.c) (windowMean l net (k + b * l.c)) :=
    fun b k output => forwardCell_eq l net b k output
  simp only [forward_avgpool_layer, forLoop, h]

theorem forward_rows (l : avgpool_layer) (net : network) (b : Nat) (f : Int → ℚ) (j : Int) :
    ((∃ k < l.c.toNat, j = (k : Int) + (b : Int) * l.c) →
      (List.range l.c.toNat).foldl (fun f (k : Nat) =>
        Function.update f ((k : Int) + (b : Int) * l.c)
          (windowMean l net ((k : Int) + (b : Int) * l.c))) f j = windowMean l net j) ∧
    ((∀ k < l.c.toNat, ¬ j = (k : Int) + (b : Int) * l.c) →
      (List.range l.c.toNat).foldl (fun f (k : Nat) =>
        Function.update f ((k : Int) + (b : Int) * l.c)
          (windowMean l net ((k : Int) + (b : Int) * l.c))) f j = f j) := by
  apply foldl_regions l.c.toNat
    (fun k f => Function.update f ((k : Int) + (b : Int) * l.c)
      (windowMean l net ((k : Int) + (b : Int) * l.c)))
    (fun k j => j = (k : Int) + (b : Int) * l.c) (fun j _ => windowMean l net j)
  · intro k _ f j hj
    subst hj
    simp
  · intro k _ f j hj
    simp [Function.update_noteq hj]
  · intro k _ k' _ hne j hj hj'
    apply hne
    have : (k : Int) = k' := by linarith
    exact_mod_cast this

theorem forward_all (l : avgpool_layer) (net : network) (f : Int → ℚ) (j : Int) :
    (∃ b < l.batch.toNat, ∃ k < l.c.toNat, j = (k : Int) + (b : Int) * l.c) →
      (List.range l.batch.toNat).foldl (fun f (b : Nat) =>
        (List.range l.c.toNat).foldl (fun f (k : Nat) =>
          Function.update f ((k : Int) + (b : Int) * l.c)
            (windowMean l net ((k : Int) + (b : Int) * l.c))) f) f j = windowMean l net j := by
  apply (foldl_regions l.batch.toNat
    (fun b f => (List.range l.c.toNat).foldl (fun f (k : Nat) =>
      Function.update f ((k : Int) + (b : Int) * l.c)
        (windowMean l net ((k : Int) + (b : Int) * l.c))) f)
    (fun b j => ∃ k < l.c.toNat, j = (k : Int) + (b : Int) * l.c)
    (fun j _ => windowMean l net j) ?_ ?_ ?_ f j).1
  · intro b _ f j hj
    exact (forward_rows l net b f j).1 hj
  · intro b _ f j hj
    exact (forward_rows l net b f j).2 (fun k hk hjk => hj ⟨k, hk, hjk⟩)
  · rintro b _ b' _ hne j ⟨k, hk, hj⟩ ⟨k', hk', hj'⟩
    apply hne
    have hc : (0 : Int) ≤ l.c := by omega
    have hkc : (k : Int) < l.c := by omega
    have hkc' : (k' : Int) < l.c := by omega
    have h1 := window_div l.c b k (by omega) hkc
    have h2 := window_div l.c b' k' (by omega) hkc'
    have : (b : Int) = b' := by
      rw [← h1, ← h2]
      congr 1
      rw [mul_comm l.c (b : Int), mul_comm l.c (b' : Int), ← hj, ← hj']
    exact_mod_cast this

/-- Claim C9: for a layer with `h*w > 0`, every batch `b < batch` and channel `k < c`, the
forward pass leaves in `output[k + b*c]` the arithmetic mean of the `h*w` inputs at the indices
`i + h*w*(k + b*c)`, `i < h*w`; the value does not depend on what `output` held before, and
the network (its input in particular) is left as it was. -/
theorem forward_avgpool_layer_mean (l : avgpool_layer) (net : network)
    (hpos : 0 < l.h * l.w) (b k : Int) (hb0 : 0 ≤ b) (hb : b < l.batch) (hk0 : 0 ≤ k)
    (hk : k < l.c) :
    (((l.h * l.w).toNat : Int) = l.h * l.w) ∧
    (forward_avgpool_layer l net).1.output (k + b * l.c) =
      (∑ i ∈ Finset.range (l.h * l.w).toNat,
        net.input ((i : Int) + l.h * l.w * (k + b * l.c))) / ((l.h * l.w : Int) : ℚ) ∧
    (∀ previous : Int → ℚ,
      (forward_avgpool_layer { l with output := previous } net).1.output (k + b * l.c) =
        (forward_avgpool_layer l net).1.output (k + b * l.c)) ∧
    (forward_avgpool_layer l net).2 = net := by
  have hmem : ∃ b' < l.batch.toNat, ∃ k' < l.c.toNat,
      k + b * l.c = (k' : Int) + (b' : Int) * l.c := by
    refine ⟨b.toNat, by omega, k.toNat, by omega, ?_⟩
    rw [Int.toNat_of_nonneg hb0, Int.toNat_of_nonneg hk0]
  have hval : ∀ previous : Int → ℚ,
      (forward_avgpool_layer { l with output := previous } net).1.output (k + b * l.c) =
        windowMean l net (k + b * l.c) := by
    intro previous
    rw [forward_output_eq]
    exact forward_all { l with output := previous } net previous (k + b * l.c) hmem
  refine ⟨Int.toNat_of_nonneg (le_of_lt hpos), ?_, ?_, rfl⟩
  · exact hval l.output
  · intro previous
    rw [hval previous, hval l.output]

/-- Claim C9 at a concrete layer: one batch, one channel, a `2 x 2` window. -/
theorem forward_avgpool_layer_mean_witness :
    (((2 : Int) * 2).toNat : Int) = 2 * 2 ∧
    (forward_avgpool_layer ⟨1, 2, 2, 1, fun _ => 7, fun _ => 0⟩
        ⟨fun j => (j : ℚ), fun _ => 0⟩).1.output (0 + 0 * 1) =
      (∑ i ∈ Finset.range ((2 : Int) * 2).toNat,
        (fun j : Int => (j : ℚ)) ((i : Int) + 2 * 2 * (0 + 0 * 1))) / (((2 : Int) * 2 : Int) : ℚ) ∧
    (∀ previous : Int → ℚ,
      (forward_avgpool_layer
          { (⟨1, 2, 2, 1, fun _ => 7, fun _ => 0⟩ : avgpool_layer) with output := previous }
          ⟨fun j => (j : ℚ), fun _ => 0⟩).1.output (0 + 0 * 1) =
        (forward_avgpool_layer ⟨1, 2, 2, 1, fun _ => 7, fun _ => 0⟩
          ⟨fun j => (j : ℚ), fun _ => 0⟩).1.output (0 + 0 * 1)) ∧
    (forward_avgpool_layer ⟨1, 2, 2, 1, fun _ => 7, fun _ => 0⟩
        ⟨fun j => (j : ℚ), fun _ => 0⟩).2 = ⟨fun j => (j : ℚ), fun _ => 0⟩ :=
  forward_avgpool_layer_mean ⟨1, 2, 2, 1, fun _ => 7, fun _ => 0⟩ ⟨fun j => (j : ℚ), fun _ => 0⟩
    (by decide) 0 0 (by decide) (by decide) (by decide) (by decide)

/-! ## The backward pass -/

theorem backward_delta_eq (l : avgpool_layer) (net : network) :
    (backward_avgpool_layer l net).2.delta =
      (List.range l.batch.toNat).foldl (fun f (b : Nat) =>
        (List.range l.c.toNat).foldl (fun f (k : Nat) =>
          (List.range (l.h * l.w).toNat).foldl (fun f (i : Nat) =>
            Function.update f ((i : Int) + l.h * l.w * ((k : Int) + (b : Int) * l.c))
              (f ((i : Int) + l.h * l.w * ((k : Int) + (b : Int) * l.c)) +
                l.delta ((k : Int) + (b : Int) * l.c) / ((l.h * l.w : Int) : ℚ))) f) f)
        net.delta := by
  simp only [backward_avgpool_layer, forLoop]

/-- The loop over `i` (lines 111-114) for the window `o`. -/
theorem backward_window (l : avgpool_layer) (o : Int) (f : Int → ℚ) (j : Int) :
    ((∃ i < (l.h * l.w).toNat, j = (i : Int) + l.h * l.w * o) →
      (List.range (l.h * l.w).toNat).foldl (fun f (i : Nat) =>
        Function.update f ((i : Int) + l.h * l.w * o)
          (f ((i : Int) + l.h * l.w * o) + l.delta o / ((l.h * l.w : Int) : ℚ))) f j =
        f j + l.delta (j / (l.h * l.w)) / ((l.h * l.w : Int) : ℚ)) ∧
    ((∀ i < (l.h * l.w).toNat, ¬ j = (i : Int) + l.h * l.w * o) →
      (List.range (l.h * l.w).toNat).foldl (fun f (i : Nat) =>
        Function.update f ((i : Int) + l.h * l.w * o)
          (f ((i : Int) + l.h * l.w * o) + l.delta o / ((l.h * l.w : Int) : ℚ))) f j = f j) := by
  apply foldl_regions (l.h * l.w).toNat
    (fun (i : Nat) f => Function.update f ((i : Int) + l.h * l.w * o)
      (f ((i : Int) + l.h * l.w * o) + l.delta o / ((l.h * l.w : Int) : ℚ)))
    (fun (i : Nat) j => j = (i : Int) + l.h * l.w * o)
    (fun j x => x + l.delta (j / (l.h * l.w)) / ((l.h * l.w : Int) : ℚ))
  · intro i hi f j hj
    subst hj
    have := window_div (l.h * l.w) o i (by omega) (by omega)
    simp [this]
  · intro i _ f j hj
    simp [Function.update_noteq hj]
  · intro i _ i' _ hne j hj hj'
    apply hne
    have : (i : Int) = i' := by linarith
    exact_mod_cast this

/-- The loop over `k` (lines 109-115) for the batch `b`. -/
theorem backward_rows (l : avgpool_layer) (b : Nat) (f : Int → ℚ) (j : Int) :
    ((∃ k < l.c.toNat, ∃ i < (l.h * l.w).toNat,
        j = (i : Int) + l.h * l.w * ((k : Int) + (b : Int) * l.c)) →
      (List.range l.c.toNat).foldl (fun f (k : Nat) =>
        (List.range (l.h * l.w).toNat).foldl (fun f (i : Nat) =>
          Function.update f ((i : Int) + l.h * l.w * ((k : Int) + (b : Int) * l.c))
            (f ((i : Int) + l.h * l.w * ((k : Int) + (b : Int) * l.c)) +
              l.delta ((k : Int) + (b : Int) * l.c) / ((l.h * l.w : Int) : ℚ))) f) f j =
        f j + l.delta (j / (l.h * l.w)) / ((l.h * l.w : Int) : ℚ)) ∧
    ((∀ k < l.c.toNat, ¬ ∃ i < (l.h * l.w).toNat,
        j = (i : Int) + l.h * l.w * ((k : Int) + (b : Int) * l.c)) →
      (List.range l.c.toNat).foldl (fun f (k : Nat) =>
        (List.range (l.h * l.w).toNat).foldl (fun f (i : Nat) =>
          Function.update f ((i : Int) + l.h * l.w * ((k : Int) + (b : Int) * l.c))
            (f ((i : Int) + l.h * l.w * ((k : Int) + (b : Int) * l.c)) +
              l.delta ((k : Int) + (b : Int) * l.c) / ((l.h * l.w : Int) : ℚ))) f) f j =
        f j) := by
  apply foldl_regions l.c.toNat
    (fun (k : Nat) f => (List.range (l.h * l.w).toNat).foldl (fun f (i : Nat) =>
      Function.update f ((i : Int) + l.h * l.w * ((k : Int) + (b : Int) * l.c))
        (f ((i : Int) + l.h * l.w * ((k : Int) + (b : Int) * l.c)) +
          l.delta ((k : Int) + (b : Int) * l.c) / ((l.h * l.w : Int) : ℚ))) f)
    (fun (k : Nat) j => ∃ i < (l.h * l.w).toNat,
      j = (i : Int) + l.h * l.w * ((k : Int) + (b : Int) * l.c))
    (fun j x => x + l.delta (j / (l.h * l.w)) / ((l.h * l.w : Int) : ℚ))
  · intro k _ f j hj
    exact (backward_window l ((k : Int) + (b : Int) * l.c) f j).1 hj
  · intro k _ f j hj
    exact (backward_window l ((k : Int) + (b : Int) * l.c) f j).2
      (fun i hi hji => hj ⟨i, hi, hji⟩)
  · rintro k _ k' _ hne j ⟨i, hi, hj⟩ ⟨i', hi', hj'⟩
    apply hne
    have h1 := window_div (l.h * l.w) ((k : Int) + (b : Int) * l.c) i (by omega) (by omega)
    have h2 := window_div (l.h * l.w) ((k' : Int) + (b : Int) * l.c) i' (by omega) (by omega)
    rw [← hj] at h1
    rw [← hj'] at h2
    have : (k : Int) = k' := by linarith
    exact_mod_cast this

/-- The loop over `b` (lines 108-116). -/
theorem backward_all (l : avgpool_layer) (f : Int → ℚ) (j : Int) :
    (∃ b < l.batch.toNat, ∃ k < l.c.toNat, ∃ i < (l.h * l.w).toNat,
        j = (i : Int) + l.h * l.w * ((k : Int) + (b : Int) * l.c)) →
      (List.range l.batch.toNat).foldl (fun f (b : Nat) =>
        (List.range l.c.toNat).foldl (fun f (k : Nat) =>
          (List.range (l.h * l.w).toNat).foldl (fun f (i : Nat) =>
            Function.update f ((i : Int) + l.h * l.w * ((k : Int) + (b : Int) * l.c))
              (f ((i : Int) + l.h * l.w * ((k : Int) + (b : Int) * l.c)) +
                l.delta ((k : Int) + (b : Int) * l.c) / ((l.h * l.w : Int) : ℚ))) f) f) f j =
        f j + l.delta (j / (l.h * l.w)) / ((l.h * l.w : Int) : ℚ) := by
  apply (foldl_regions l.batch.toNat
    (fun (b : Nat) f => (List.range l.c.toNat).foldl (fun f (k : Nat) =>
      (List.range (l.h * l.w).toNat).foldl (fun f (i : Nat) =>
        Function.update f ((i : Int) + l.h * l.w * ((k : Int) + (b : Int) * l.c))
          (f ((i : Int) + l.h * l.w * ((k : Int) + (b : Int) * l.c)) +
            l.delta ((k : Int) + (b : Int) * l.c) / ((l.h * l.w : Int) : ℚ))) f) f)
    (fun (b : Nat) j => ∃ k < l.c.toNat, ∃ i < (l.h * l.w).toNat,
      j = (i : Int) + l.h * l.w * ((k : Int) + (b : Int) * l.c))
    (fun j x => x + l.delta (j / (l.h * l.w)) / ((l.h * l.w : Int) : ℚ)) ?_ ?_ ?_ f j).1
  · intro b _ f j hj
    exact (backward_rows l b f j).1 hj
  · intro b _ f j hj
    exact (backward_rows l b f j).2 (fun k hk hjk => hj ⟨k, hk, hjk⟩)
  · rintro b _ b' _ hne j ⟨k, hk, i, hi, hj⟩ ⟨k', hk', i', hi', hj'⟩
    apply hne
    have h1 := window_div (l.h * l.w) ((k : Int) + (b : Int) * l.c) i (by omega) (by omega)
    have h2 := window_div (l.h * l.w) ((k' : Int) + (b' : Int) * l.c) i' (by omega) (by omega)
    rw [← hj] at h1
    rw [← hj'] at h2
    have hkk : (k : Int) + (b : Int) * l.c = (k' : Int) + (b' : Int) * l.c := by
      rw [← h1, ← h2]
    have h3 := window_div l.c b k (by omega) (by omega)
    have h4 := window_div l.c b' k' (by omega) (by omega)
    have : (b : Int) = b' := by
      rw [← h3, ← h4]
      congr 1
      rw [mul_comm l.c (b : Int), mul_comm l.c (b' : Int), hkk]
    exact_mod_cast this

/-- Claim C10: for a layer with `h*w > 0`, every batch `b < batch` and channel `k < c`, the
backward pass adds `l.delta[k + b*c] / (h*w)` to `net.delta[i + h*w*(k + b*c)]` for each
`i < h*w`, on top of the value that was there; the increases over the window add up to
`l.delta[k + b*c]`; the layer (`l.delta` in particular) and the input of the network are left
as they were. -/
theorem backward_avgpool_layer_accumulates (l : avgpool_layer) (net : network)
    (hpos : 0 < l.h * l.w) (b k : Int) (hb0 : 0 ≤ b) (hb : b < l.batch) (hk0 : 0 ≤ k)
    (hk : k < l.c) :
    (∀ i : Int, 0 ≤ i → i < l.h * l.w →
      (backward_avgpool_layer l net).2.delta (i + l.h * l.w * (k + b * l.c)) =
        net.delta (i + l.h * l.w * (k + b * l.c)) +
          l.delta (k + b * l.c) / ((l.h * l.w : Int) : ℚ)) ∧
    (∑ i ∈ Finset.range (l.h * l.w).toNat,
      ((backward_avgpool_layer l net).2.delta ((i : Int) + l.h * l.w * (k + b * l.c)) -
        net.delta ((i : Int) + l.h * l.w * (k + b * l.c)))) = l.delta (k + b * l.c) ∧
    (backward_avgpool_layer l net).1 = l ∧
    (backward_avgpool_layer l net).2.input = net.input := by
  have hcell : ∀ i : Int, 0 ≤ i → i < l.h * l.w →
      (backward_avgpool_layer l net).2.delta (i + l.h * l.w * (k + b * l.c)) =
        net.delta (i + l.h * l.w * (k + b * l.c)) +
          l.delta (k + b * l.c) / ((l.h * l.w : Int) : ℚ) := by
    intro i hi0 hi
    rw [backward_delta_eq]
    have hmem : ∃ b' < l.batch.toNat, ∃ k' < l.c.toNat, ∃ i' < (l.h * l.w).toNat,
        i + l.h * l.w * (k + b * l.c) =
          (i' : Int) + l.h * l.w * ((k' : Int) + (b' : Int) * l.c) := by
      refine ⟨b.toNat, by omega, k.toNat, by omega, i.toNat, by omega, ?_⟩
      rw [Int.toNat_of_nonneg hb0, Int.toNat_of_nonneg hk0, Int.toNat_of_nonneg hi0]
    rw [backward_all l net.delta _ hmem, window_div (l.h * l.w) (k + b * l.c) i hi0 hi]
  refine ⟨hcell, ?_, rfl, rfl⟩
  have hterm : ∀ i ∈ Finset.range (l.h * l.w).toNat,
      (backward_avgpool_layer l net).2.delta ((i : Int) + l.h * l.w * (k + b * l.c)) -
        net.delta ((i : Int) + l.h * l.w * (k + b * l.c)) =
      l.delta (k + b * l.c) / ((l.h * l.w : Int) : ℚ) := by
    intro i hi
    have hi' : i < (l.h * l.w).toNat := Finset.mem_range.1 hi
    rw [hcell i (by omega) (by omega)]
    ring
  rw [Finset.sum_congr rfl hterm, Finset.sum_const, Finset.card_range, nsmul_eq_mul]
  have hcast : (((l.h * l.w).toNat : Nat) : ℚ) = ((l.h * l.w : Int) : ℚ) := by
    have h := Int.toNat_of_nonneg (le_of_lt hpos)
    exact_mod_cast congrArg (fun z : Int => (z : ℚ)) h
  have hne : ((l.h * l.w : Int) : ℚ) ≠ 0 := by
    have : (l.h * l.w : Int) ≠ 0 := by omega
    exact_mod_cast this
  rw [hcast, mul_div_cancel₀ _ hne]

/-- Claim C10 at a concrete layer: one batch, one channel, a `2 x 2` window. -/
theorem backward_avgpool_layer_accumulates_witness :
    (∀ i : Int, 0 ≤ i → i < 2 * 2 →
      (backward_avgpool_layer ⟨1, 2, 2, 1, fun _ => 0, fun _ => 8⟩
          ⟨fun _ => 0, fun _ => 5⟩).2.delta (i + 2 * 2 * (0 + 0 * 1)) =
        (fun _ : Int => (5 : ℚ)) (i + 2 * 2 * (0 + 0 * 1)) +
          (fun _ : Int => (8 : ℚ)) (0 + 0 * 1) / (((2 : Int) * 2 : Int) : ℚ)) ∧
    (∑ i ∈ Finset.range ((2 : Int) * 2).toNat,
      ((backward_avgpool_layer ⟨1, 2, 2, 1, fun _ => 0, fun _ => 8⟩
          ⟨fun _ => 0, fun _ => 5⟩).2.delta ((i : Int) + 2 * 2 * (0 + 0 * 1)) -
        (fun _ : Int => (5 : ℚ)) ((i : Int) + 2 * 2 * (0 + 0 * 1)))) =
      (fun _ : Int => (8 : ℚ)) (0 + 0 * 1) ∧
    (backward_avgpool_layer ⟨1, 2, 2, 1, fun _ => 0, fun _ => 8⟩ ⟨fun _ => 0, fun _ => 5⟩).1 =
      ⟨1, 2, 2, 1, fun _ => 0, fun _ => 8⟩ ∧
    (backward_avgpool_layer ⟨1, 2, 2, 1, fun _ => 0, fun _ => 8⟩
        ⟨fun _ => 0, fun _ => 5⟩).2.input = fun _ => 0 :=
  backward_avgpool_layer_accumulates ⟨1, 2, 2, 1, fun _ => 0, fun _ => 8⟩
    ⟨fun _ => 0, fun _ => 5⟩ (by decide) 0 0 (by decide) (by decide) (by decide) (by decide)

end Darknet
